import Mathlib

/-!
Verification development for the Scene Manager of the phaser-raw repository.

The definitions below are a shallow embedding of
`src/phaser/src/scene/SceneManager.ts` (the Scene Manager class) together
with the per-scene state it manipulates.  Scenes are kept in a store
(`SM.store`), and both the ordered `scenes` array and the `keys` record hold
references (store indices) into it, mirroring the aliasing of JavaScript
object references.  The `scenes` array has element type `Option Nat`
because JavaScript arrays can hold `null` (and `SceneManager.moveUp` can in
fact write `null` into the array, see the theorems below).

The numeric scene-status constants are taken from the source: the `dump()`
method of SceneManager.ts indexes the array
`['pending','init','start','loading','creating','running','paused',
'sleeping','shutdown','destroyed']` by `settings.status`, fixing the values
0..9 in that order.

`Systems.ts` and `Settings.ts` of this repository are not part of the
provided sources (only their callers are), so the per-scene lifecycle
operations (`sys.start`, `sys.shutdown`, `sys.sleep`, `sys.wake`,
`sys.pause`, `sys.resume`, `sys.destroy`, `sys.init`, the status
predicates, and the settings record created for a new scene) are modelled
from the specification; each such definition carries a doc comment saying
so.  Everything else is translated from SceneManager.ts / Scene.ts.

User callbacks (`init`, `preload`, `create`, `update`, `render`) are
modelled as presence flags plus an event trace: invoking a hook appends an
event recording the scene key and the data payload it received.  Data
payloads are modelled as `Nat` (0 standing for the empty object `{}`).
The external Loader is modelled through the flags the manager consults
(`sys.load` non-null, `addPack` success) and trace events for
`loader.start()`; loader completion callbacks re-enter the manager
asynchronously and are therefore not fired inside these definitions.
-/

/-- Scene status constant PENDING (value fixed by the map in `dump()`). -/
def CONST.PENDING : Nat := 0

/-- Scene status constant INIT. -/
def CONST.INIT : Nat := 1

/-- Scene status constant START. -/
def CONST.START : Nat := 2

/-- Scene status constant LOADING. -/
def CONST.LOADING : Nat := 3

/-- Scene status constant CREATING. -/
def CONST.CREATING : Nat := 4

/-- Scene status constant RUNNING. -/
def CONST.RUNNING : Nat := 5

/-- Scene status constant PAUSED. -/
def CONST.PAUSED : Nat := 6

/-- Scene status constant SLEEPING. -/
def CONST.SLEEPING : Nat := 7

/-- Scene status constant SHUTDOWN. -/
def CONST.SHUTDOWN : Nat := 8

/-- Scene status constant DESTROYED. -/
def CONST.DESTROYED : Nat := 9

/-- The settings record of a scene (spec section 3: key, status, active,
visible, isTransitioning flag, injected data, optional preload pack).
`pack = none` models the absence of the `pack` property
(`hasOwnProperty('pack')` false); `pack = some b` models a present pack for
which the external `loader.addPack` call returns `b`. -/
structure SceneSettings where
  key : String
  status : Nat
  active : Bool
  visible : Bool
  isTransition : Bool
  data : Nat
  pack : Option Bool
deriving Repr, DecidableEq

/-- A scene unit: its settings plus the presence of the optional user
callbacks (`init`, `preload`, `create`, `update`) and of the per-scene
loader (`sys.load` non-null), and the `sys.sceneUpdate` slot (modelled as
a flag: `true` iff a user update hook is installed, `false` for NOOP). -/
structure SceneObj where
  settings : SceneSettings
  hasInit : Bool
  hasPreload : Bool
  hasCreate : Bool
  hasUpdate : Bool
  hasLoad : Bool
  sceneUpdateInstalled : Bool
deriving Repr, DecidableEq

/-- Trace events: one per user-callback invocation or lifecycle emission
observable through the manager. -/
inductive Ev where
  | initEv (key : String) (data : Nat)
  | transitionInitEv (key : String)
  | preloadEv (key : String)
  | loadStartEv (key : String)
  | createEv (key : String) (data : Nat)
  | transitionStartEv (key : String)
  | createdEv (key : String)
  | stepEv (key : String)
  | renderEv (key : String)
  | startEv (key : String) (data : Nat)
  | shutdownEv (key : String) (data : Nat)
  | sleepEv (key : String) (data : Nat)
  | wakeEv (key : String) (data : Nat)
  | pauseEv (key : String) (data : Nat)
  | resumeEv (key : String) (data : Nat)
  | destroyEv (key : String)
  | packLoadEv (key : String)
deriving Repr, DecidableEq

/-- A plain-object scene descriptor, with the recognized keys resolved
(`key?`, `active?`, `visible?`, `data?`, `pack?` and the four callback
slots).  The `extend` property merge of `createSceneFromObject` copies
user properties onto the scene object; those properties are outside the
observable state of this embedding and are not modelled. -/
structure ObjectConfig where
  key : Option String
  active : Bool
  visible : Bool
  data : Option Nat
  pack : Option Bool
  hasInit : Bool
  hasPreload : Bool
  hasCreate : Bool
  hasUpdate : Bool
deriving Repr, DecidableEq

/-- The three public descriptor shapes accepted by `add` / `bootQueue`:
a Scene instance, a plain object, or a constructor function.  For the
function form, `result` is the object produced by `new scene()` and
`isScene` records whether it is `instanceof Scene`. -/
inductive SceneConfig where
  | inst (scene : SceneObj)
  | obj (config : ObjectConfig)
  | func (result : SceneObj) (isScene : Bool)
deriving Repr, DecidableEq

/-- Value stored in the `keyB` slot of a queue entry: `queueOp` is called
either with a second scene key (`moveAbove`, `moveBelow`, `swapPosition`)
or with a data object (`run` queueing a `start`). -/
inductive KBVal where
  | key (k : String)
  | data (d : Nat)
deriving Repr, DecidableEq

/-- The operations that `queueOp` is invoked with in SceneManager.ts
(the subset of `TSceneOp` that can actually reach `_queue`). -/
inductive QOpName where
  | remove
  | start
  | bringToTop
  | sendToBack
  | moveDown
  | moveUp
  | moveAbove
  | moveBelow
  | swapPosition
deriving Repr, DecidableEq

/-- An entry of the `_queue` operations queue: `{op, keyA, keyB?, data?}`. -/
structure QueueEntry where
  op : QOpName
  keyA : String
  keyB : Option KBVal
  data : Nat
deriving Repr, DecidableEq

/-- An entry of the `_pending` admission list: `{key, scene, autoStart, data}`. -/
structure PendingEntry where
  key : String
  scene : SceneConfig
  autoStart : Bool
  data : Nat
deriving Repr, DecidableEq

/-- An entry of the boot-time `_data` map: `add` stages `{data}` (no
`autoStart` property, hence `autoStart = false`), `start` stages
`{autoStart: true, data}`. -/
structure BootData where
  autoStart : Bool
  data : Nat
deriving Repr, DecidableEq

/-- The SceneManager state: the scene store (JavaScript heap for scene
objects; an id is an index into it, ids are never reused), the ordered
`scenes` array of references, the `keys` record, the `_pending`, `_start`,
`_queue` and `_data` buffers, the two flags, plus the observation
channels (console warnings and the event trace). -/
structure SM where
  store : Nat → SceneObj
  storeLen : Nat
  scenes : List (Option Nat)
  keys : List (String × Nat)
  systemScene : Option Nat
  _pending : List PendingEntry
  _start : List String
  _queue : List QueueEntry
  _data : List (String × BootData)
  isProcessing : Bool
  isBooted : Bool
  warnings : List String
  events : List Ev

/-- Lookup in a JavaScript-object-style string map (first binding wins;
maps built by `setKey`/`eraseKey` have at most one binding per key). -/
def lookupKey (m : List (String × Nat)) (k : String) : Option Nat :=
  match m.find? (fun p => p.1 == k) with
  | some p => some p.2
  | none => none

/-- Assignment `m[k] = v` on a JavaScript-object-style map: replaces the
existing binding in place, or appends a new one. -/
def setKey (m : List (String × Nat)) (k : String) (v : Nat) : List (String × Nat) :=
  if (m.find? (fun p => p.1 == k)).isSome then
    m.map (fun p => if p.1 == k then (k, v) else p)
  else
    m ++ [(k, v)]

/-- Deletion `delete m[k]` on a JavaScript-object-style map. -/
def eraseKey (m : List (String × Nat)) (k : String) : List (String × Nat) :=
  m.filter (fun p => p.1 != k)

/-- Lookup in the boot-time `_data` map. -/
def lookupData (m : List (String × BootData)) (k : String) : Option BootData :=
  match m.find? (fun p => p.1 == k) with
  | some p => some p.2
  | none => none

/-- Assignment into the boot-time `_data` map. -/
def setData (m : List (String × BootData)) (k : String) (v : BootData) :
    List (String × BootData) :=
  if (m.find? (fun p => p.1 == k)).isSome then
    m.map (fun p => if p.1 == k then (k, v) else p)
  else
    m ++ [(k, v)]

/-- JavaScript `Array.prototype.indexOf`: index of the first occurrence,
or -1 when absent. -/
def jsIndexOf (l : List (Option Nat)) (x : Option Nat) : Int :=
  if x ∈ l then (l.indexOf x : Int) else -1

/-- JavaScript indexed assignment `l[i] = v` for a signed index: writes the
element when `0 ≤ i < l.length`; out-of-range signed indices create plain
object properties invisible to the element list, so they leave the
elements unchanged. -/
def jsSet (l : List (Option Nat)) (i : Int) (v : Option Nat) : List (Option Nat) :=
  if 0 ≤ i ∧ i < (l.length : Int) then l.set i.toNat v else l

/-- JavaScript indexed read `l[i]` for a signed index (in the flows below
it is only evaluated at in-range indices; out of range it yields the
JavaScript `undefined`, which we conflate with `none`). -/
def jsGet (l : List (Option Nat)) (i : Int) : Option Nat :=
  if 0 ≤ i ∧ i < (l.length : Int) then l.getD i.toNat none else none

/-- JavaScript `splice(i, 1)` at a known-in-range signed index. -/
def jsEraseAt (l : List (Option Nat)) (i : Int) : List (Option Nat) :=
  if 0 ≤ i ∧ i < (l.length : Int) then l.eraseIdx i.toNat else l

/-- JavaScript `splice(i, 0, v)` (insertion; JavaScript clamps an index
beyond the length to an append, and `insertIdx` beyond the length is a
no-op, so the length is clamped explicitly). -/
def jsInsertAt (l : List (Option Nat)) (i : Int) (v : Option Nat) : List (Option Nat) :=
  if 0 ≤ i then l.insertIdx (min i.toNat l.length) v else l.insertIdx 0 v

example : jsIndexOf [some 3, none, some 5] none = 1 := by decide
example : jsIndexOf [some 3] (some 5) = -1 := by decide
example : jsSet [some 1, some 2] (-1) none = [some 1, some 2] := by decide
example : jsSet [some 1, some 2] 0 none = [none, some 2] := by decide

/-- Modelled from the spec: the settings record created by the missing
Settings.ts for an absent config — empty key, PENDING status, inactive,
visible, not transitioning, empty data `{}` (0), no pack property. -/
def emptySettings : SceneSettings :=
  { key := "", status := CONST.PENDING, active := false, visible := true,
    isTransition := false, data := 0, pack := none }

/-- A `new Scene()` built with no config: default settings, none of the
optional callbacks (the base Scene class defines an `update` method, so
the update slot is truthy), no loader until `Systems.init` runs. -/
def newSceneDefault : SceneObj :=
  { settings := emptySettings, hasInit := false, hasPreload := false,
    hasCreate := false, hasUpdate := true, hasLoad := false,
    sceneUpdateInstalled := false }

/-- Read a scene object from the store.  Ids handed out by `SM.alloc` are
always in range; the default is unreachable. -/
def SM.getSys (st : SM) (id : Nat) : SceneObj :=
  st.store id

/-- Pointwise update of the scene heap. -/
def updStore (f : Nat → SceneObj) (id : Nat) (v : SceneObj) : Nat → SceneObj :=
  fun j => if j = id then v else f j

/-- Allocate a new scene object in the store, returning its fresh id. -/
def SM.alloc (st : SM) (s : SceneObj) : SM × Nat :=
  ({ st with store := updStore st.store st.storeLen s, storeLen := st.storeLen + 1 },
   st.storeLen)

/-- Update the scene object stored under `id` in place (all references —
`scenes` entries and `keys` bindings — observe the update, as JavaScript
references to one object do). -/
def SM.updSys (st : SM) (id : Nat) (f : SceneObj → SceneObj) : SM :=
  { st with store := updStore st.store id (f (st.getSys id)) }

/-- Append an event to the observation trace. -/
def SM.emit (st : SM) (e : Ev) : SM :=
  { st with events := st.events ++ [e] }

/-- Modelled from the spec: `Systems.init` (Systems.ts is not in the
sources) binds the scene to the runtime and acquires its injected
subsystems — in particular the per-scene loader — exactly once; an
admitted scene is idle, i.e. status INIT. -/
def Systems.init (st : SM) (id : Nat) : SM :=
  st.updSys id (fun s =>
    { s with settings := { s.settings with status := CONST.INIT }, hasLoad := true })

/-- Modelled from the spec: `Systems.start(data)` sets status START and
replaces `settings.data`. -/
def Systems.start (st : SM) (id : Nat) (data : Nat) : SM :=
  let st1 := st.updSys id (fun s =>
    { s with settings := { s.settings with status := CONST.START, data := data } })
  st1.emit (.startEv (st.getSys id).settings.key data)

/-- Modelled from the spec: `Systems.shutdown(data)` tears down running
state and sets status SHUTDOWN; safe from any live state. -/
def Systems.shutdown (st : SM) (id : Nat) (data : Nat) : SM :=
  let st1 := st.updSys id (fun s =>
    { s with settings := { s.settings with status := CONST.SHUTDOWN } })
  st1.emit (.shutdownEv (st.getSys id).settings.key data)

/-- Modelled from the spec: `Systems.sleep(data)` moves the scene to
SLEEPING, preserving its state; a destroyed scene is untouched. -/
def Systems.sleep (st : SM) (id : Nat) (data : Nat) : SM :=
  if (st.getSys id).settings.status == CONST.DESTROYED then st
  else
    let st1 := st.updSys id (fun s =>
      { s with settings := { s.settings with status := CONST.SLEEPING } })
    st1.emit (.sleepEv (st.getSys id).settings.key data)

/-- Modelled from the spec: `Systems.wake(data)` returns a scene to
RUNNING, the wake callback receiving exactly the payload; a destroyed
scene is untouched. -/
def Systems.wake (st : SM) (id : Nat) (data : Nat) : SM :=
  if (st.getSys id).settings.status == CONST.DESTROYED then st
  else
    let st1 := st.updSys id (fun s =>
      { s with settings := { s.settings with status := CONST.RUNNING } })
    st1.emit (.wakeEv (st.getSys id).settings.key data)

/-- Modelled from the spec: `Systems.pause(data)` toggles RUNNING to
PAUSED, a no-op when not in the complementary state. -/
def Systems.pause (st : SM) (id : Nat) (data : Nat) : SM :=
  if (st.getSys id).settings.status == CONST.RUNNING then
    let st1 := st.updSys id (fun s =>
      { s with settings := { s.settings with status := CONST.PAUSED } })
    st1.emit (.pauseEv (st.getSys id).settings.key data)
  else st

/-- Modelled from the spec: `Systems.resume(data)` toggles PAUSED back to
RUNNING, a no-op when not in the complementary state. -/
def Systems.resume (st : SM) (id : Nat) (data : Nat) : SM :=
  if (st.getSys id).settings.status == CONST.PAUSED then
    let st1 := st.updSys id (fun s =>
      { s with settings := { s.settings with status := CONST.RUNNING } })
    st1.emit (.resumeEv (st.getSys id).settings.key data)
  else st

/-- Modelled from the spec: `Systems.destroy()` irreversibly releases the
scene and sets status DESTROYED. -/
def Systems.destroy (st : SM) (id : Nat) : SM :=
  let st1 := st.updSys id (fun s =>
    { s with settings := { s.settings with status := CONST.DESTROYED } })
  st1.emit (.destroyEv (st.getSys id).settings.key)

/-- Modelled from the spec: `Systems.isSleeping()`, a pure predicate over
the status. -/
def Systems.isSleeping (st : SM) (id : Nat) : Bool :=
  (st.getSys id).settings.status == CONST.SLEEPING

/-- Modelled from the spec: `Systems.isPaused()`, a pure predicate over
the status. -/
def Systems.isPaused (st : SM) (id : Nat) : Bool :=
  (st.getSys id).settings.status == CONST.PAUSED

/-- Modelled from the spec: `Systems.isTransitioning()`, a pure predicate
over the transition flag. -/
def Systems.isTransitioning (st : SM) (id : Nat) : Bool :=
  (st.getSys id).settings.isTransition

/-- Modelled from the spec: `Systems.step(time, delta)` runs the scene's
per-frame step (invoking the installed `sceneUpdate` hook); observed as a
step event. -/
def Systems.step (st : SM) (id : Nat) (time delta : Nat) : SM :=
  st.emit (.stepEv (st.getSys id).settings.key)

/-- Modelled from the spec: `Systems.render(renderer)` draws the scene;
observed as a render event. -/
def Systems.render (st : SM) (id : Nat) : SM :=
  st.emit (.renderEv (st.getSys id).settings.key)

/-- SceneManager.getScene for a string key: `if (this.keys[key]) return
this.keys[key]; ... return null` (a scene object is always truthy).  The
Scene-object overload of the source is not exercised by these claims. -/
def SM.getScene (st : SM) (key : String) : Option Nat :=
  lookupKey st.keys key

/-- SceneManager.getAt: `return this.scenes[index]`. -/
def SM.getAt (st : SM) (index : Int) : Option Nat :=
  jsGet st.scenes index

/-- SceneManager.getIndex: `scene = getScene(key); return
scenes.indexOf(scene)` (for an unknown key this is `indexOf(null)`). -/
def SM.getIndex (st : SM) (key : String) : Int :=
  jsIndexOf st.scenes (st.getScene key)

/-- SceneManager.isSleeping: delegates to the Systems predicate, `null`
when the key matches no scene. -/
def SM.isSleeping (st : SM) (key : String) : Option Bool :=
  match st.getScene key with
  | some id => some (Systems.isSleeping st id)
  | none => none

/-- SceneManager.isPaused: delegates to the Systems predicate, `null`
when the key matches no scene. -/
def SM.isPaused (st : SM) (key : String) : Option Bool :=
  match st.getScene key with
  | some id => some (Systems.isPaused st id)
  | none => none

/-- SceneManager.queueOp: push `{op, keyA, keyB, data}` onto `_queue`
(and return `this`). -/
def SM.queueOp (st : SM) (op : QOpName) (keyA : String) (keyB : Option KBVal)
    (data : Nat) : SM :=
  { st with _queue := st._queue ++ [⟨op, keyA, keyB, data⟩] }

/-- SceneManager.createSceneFromInstance: adopt the manager's key only
when the instance's own settings key is empty, then `sys.init(game)`. -/
def SM.createSceneFromInstance (st : SM) (key : String) (newScene : SceneObj) :
    SM × Nat :=
  let s :=
    if newScene.settings.key == "" then
      { newScene with settings := { newScene.settings with key := key } }
    else newScene
  let p := st.alloc s
  (Systems.init p.1 p.2, p.2)

/-- The `new Scene(sceneConfig)` step of createSceneFromObject: the Scene
constructor builds a Systems/Settings pair from the config (Settings
modelled from the spec: resolved key or empty, PENDING status, resolved
flags, injected data or empty, optional pack).  The callback extraction
loop of createSceneFromObject is folded in here (it runs after `sys.init`
in the source, with no observable difference); the base class supplies a
truthy `update`, so the update slot is truthy regardless of the config. -/
def sceneFromConfigObject (c : ObjectConfig) : SceneObj :=
  { settings :=
      { key := c.key.getD "", status := CONST.PENDING, active := c.active,
        visible := c.visible, isTransition := false, data := c.data.getD 0,
        pack := c.pack },
    hasInit := c.hasInit, hasPreload := c.hasPreload, hasCreate := c.hasCreate,
    hasUpdate := true, hasLoad := false, sceneUpdateInstalled := false }

/-- SceneManager.createSceneFromObject: build the Scene from the config;
when the config carried its own key it wins, otherwise the manager's key
is written into the settings; then `sys.init(game)`. -/
def SM.createSceneFromObject (st : SM) (key : String) (c : ObjectConfig) :
    SM × Nat :=
  let newScene := sceneFromConfigObject c
  let newScene :=
    if newScene.settings.key != "" then newScene
    else { newScene with settings := { newScene.settings with key := key } }
  let p := st.alloc newScene
  (Systems.init p.1 p.2, p.2)

/-- SceneManager.createSceneFromFunction: `new scene()`; if the result is
`instanceof Scene`, prefer its own key, reject a duplicate key with the
configuration error, and admit it as an instance; otherwise install a
fresh Systems with default settings under the manager's key (note: no
duplicate-key check on this branch). -/
def SM.createSceneFromFunction (st : SM) (key : String) (result : SceneObj)
    (isScene : Bool) : SM × Except String Nat :=
  if isScene then
    let configKey := result.settings.key
    let key1 := if configKey != "" then configKey else key
    if (lookupKey st.keys key1).isSome then
      (st, .error ("Cannot add Scene with duplicate key: " ++ key1))
    else
      let p := st.createSceneFromInstance key1 result
      (p.1, .ok p.2)
  else
    let s : SceneObj :=
      { result with
          settings := { emptySettings with key := key }
          hasLoad := false
          sceneUpdateInstalled := false }
    let p := st.alloc s
    (Systems.init p.1 p.2, .ok p.2)

/-- SceneManager.getKey: default an empty key to `'default'`; a function
config keeps that key with no duplicate check; an instance or object
config may override it; then reject a key already present in `keys` with
the duplicate-key configuration error. -/
def SM.getKey (st : SM) (key : String) (sceneConfig : SceneConfig) :
    Except String String :=
  let key0 := if key == "" then "default" else key
  match sceneConfig with
  | .func _ _ => .ok key0
  | .inst s =>
      let key1 := s.settings.key
      if (lookupKey st.keys key1).isSome then
        .error ("Cannot add Scene with duplicate key: " ++ key1)
      else .ok key1
  | .obj c =>
      let key1 := match c.key with | some k => k | none => key0
      if (lookupKey st.keys key1).isSome then
        .error ("Cannot add Scene with duplicate key: " ++ key1)
      else .ok key1

/-- SceneManager.create: set CREATING and call `create(data)` when the
callback exists (aborting if the callback destroyed the scene), emit the
transition-start event when transitioning, install the user update hook,
set RUNNING and emit the creation event. -/
def SM.create (st : SM) (id : Nat) : SM :=
  let sys := st.getSys id
  let settings := sys.settings
  let st1 :=
    if sys.hasCreate then
      ((st.updSys id (fun s =>
        { s with settings := { s.settings with status := CONST.CREATING } })).emit
        (.createEv settings.key settings.data))
    else st
  if sys.hasCreate && ((st1.getSys id).settings.status == CONST.DESTROYED) then st1
  else
    let st2 :=
      if (st1.getSys id).settings.isTransition then
        st1.emit (.transitionStartEv settings.key)
      else st1
    let st3 :=
      if sys.hasUpdate then
        st2.updSys id (fun s => { s with sceneUpdateInstalled := true })
      else st2
    let st4 := st3.updSys id (fun s =>
      { s with settings := { s.settings with status := CONST.RUNNING } })
    st4.emit (.createdEv settings.key)

/-- SceneManager.bootScene: reset the update slot to NOOP; call
`init(data)` when present (then status INIT, and the transition-init
event when transitioning); `loader.reset()`; when a loader and a
`preload` callback exist, call `preload()`, set LOADING and start the
loader (create is deferred to the loader COMPLETE callback); otherwise
create immediately. -/
def SM.bootScene (st : SM) (id : Nat) : SM :=
  let st0 := st.updSys id (fun s => { s with sceneUpdateInstalled := false })
  let sys := st0.getSys id
  let settings := sys.settings
  let st1 :=
    if sys.hasInit then
      let stA := st0.emit (.initEv settings.key settings.data)
      let stB := stA.updSys id (fun s =>
        { s with settings := { s.settings with status := CONST.INIT } })
      if settings.isTransition then stB.emit (.transitionInitEv settings.key)
      else stB
    else st0
  if sys.hasLoad && sys.hasPreload then
    let stA := st1.emit (.preloadEv settings.key)
    let stB := stA.updSys id (fun s =>
      { s with settings := { s.settings with status := CONST.LOADING } })
    stB.emit (.loadStartEv settings.key)
  else
    st1.create id

/-- SceneManager.start: before boot, stage `{autoStart: true, data}` in
`_data`; an unknown key logs a console warning and no-ops; a status in
[START, CREATING] no-ops; a status in [RUNNING, SLEEPING] is shut down
and restarted, then boots synchronously; otherwise the scene is started
and, when a loader exists and the settings own a `pack` that `addPack`
accepts, set LOADING and defer the boot to `payloadComplete`; otherwise
boot synchronously. -/
def SM.start (st : SM) (key : String) (data : Nat) : SM :=
  if !st.isBooted then
    { st with _data := setData st._data key ⟨true, data⟩ }
  else
    match st.getScene key with
    | none =>
        { st with warnings := st.warnings ++ ["Scene key not found: " ++ key] }
    | some id =>
      let status := (st.getSys id).settings.status
      if CONST.START ≤ status ∧ status ≤ CONST.CREATING then st
      else if CONST.RUNNING ≤ status ∧ status ≤ CONST.SLEEPING then
        let st1 := Systems.shutdown st id 0
        let st2 := st1.updSys id (fun s => { s with sceneUpdateInstalled := false })
        let st3 := Systems.start st2 id data
        st3.bootScene id
      else
        let st1 := st.updSys id (fun s => { s with sceneUpdateInstalled := false })
        let st2 := Systems.start st1 id data
        let sys2 := st2.getSys id
        if sys2.hasLoad && sys2.settings.pack.isSome then
          if sys2.settings.pack == some true then
            let st3 := st2.updSys id (fun s =>
              { s with settings := { s.settings with status := CONST.LOADING } })
            st3.emit (.packLoadEv key)
          else st2.bootScene id
        else st2.bootScene id

/-- SceneManager.stop: when the scene exists, is not mid-transition and
is not already SHUTDOWN, unsubscribe the loader (unobservable here) and
shut it down. -/
def SM.stop (st : SM) (key : String) (data : Nat) : SM :=
  match st.getScene key with
  | none => st
  | some id =>
    if !(Systems.isTransitioning st id) &&
        ((st.getSys id).settings.status != CONST.SHUTDOWN) then
      Systems.shutdown st id data
    else st

/-- SceneManager.sleep: refuse while transitioning, otherwise delegate. -/
def SM.sleep (st : SM) (key : String) (data : Nat) : SM :=
  match st.getScene key with
  | none => st
  | some id =>
    if !(Systems.isTransitioning st id) then Systems.sleep st id data else st

/-- SceneManager.wake: delegate when the scene exists. -/
def SM.wake (st : SM) (key : String) (data : Nat) : SM :=
  match st.getScene key with
  | none => st
  | some id => Systems.wake st id data

/-- SceneManager.pause: delegate when the scene exists. -/
def SM.pause (st : SM) (key : String) (data : Nat) : SM :=
  match st.getScene key with
  | none => st
  | some id => Systems.pause st id data

/-- SceneManager.resume: delegate when the scene exists. -/
def SM.resume (st : SM) (key : String) (data : Nat) : SM :=
  match st.getScene key with
  | none => st
  | some id => Systems.resume st id data

/-- SceneManager.run: for an unknown key, queue a deferred start when a
pending admission carries that key (no warning is logged); otherwise wake
a sleeping scene, resume a paused one, or start it. -/
def SM.run (st : SM) (key : String) (data : Nat) : SM :=
  match st.getScene key with
  | none =>
      if st._pending.any (fun e => e.key == key) then
        st.queueOp .start key (some (.data data)) 0
      else st
  | some id =>
      if Systems.isSleeping st id then Systems.wake st id data
      else if Systems.isPaused st id then Systems.resume st id data
      else st.start key data

/-- SceneManager.switch: when both scenes exist and differ, sleep the
`from` scene, then wake the `to` scene when it is sleeping and start it
otherwise; any other case changes nothing. -/
def SM.switch (st : SM) (fromKey toKey : String) (data : Nat) : SM :=
  let a := st.getScene fromKey
  let b := st.getScene toKey
  match a, b with
  | some ia, some ib =>
    if ia != ib then
      let st1 := st.sleep fromKey 0
      if st1.isSleeping toKey == some true then st1.wake toKey data
      else st1.start toKey data
    else st
  | _, _ => st

/-- SceneManager.remove: while processing, queue the operation; refuse an
unknown key or a transitioning scene; otherwise delete the key binding,
splice the scene out of `scenes`, drop its key from `_start`, and destroy
its Systems. -/
def SM.remove (st : SM) (key : String) : SM :=
  if st.isProcessing then st.queueOp .remove key none 0
  else
    match st.getScene key with
    | none => st
    | some id =>
      if Systems.isTransitioning st id then st
      else
        let index := jsIndexOf st.scenes (some id)
        let sceneKey := (st.getSys id).settings.key
        if index > -1 then
          let st1 := { st with keys := eraseKey st.keys sceneKey,
                               scenes := jsEraseAt st.scenes index }
          let st2 :=
            if st1._start.contains sceneKey then
              { st1 with _start := st1._start.erase sceneKey }
            else st1
          Systems.destroy st2 id
        else st

/-- SceneManager.bringToTop: while processing, queue; otherwise splice the
scene out and push it to the end of `scenes`. -/
def SM.bringToTop (st : SM) (key : String) : SM :=
  if st.isProcessing then st.queueOp .bringToTop key none 0
  else
    let index := st.getIndex key
    if index != -1 ∧ index < (st.scenes.length : Int) then
      let scene := st.getScene key
      { st with scenes := jsEraseAt st.scenes index ++ [scene] }
    else st

/-- SceneManager.sendToBack: while processing, queue; otherwise splice the
scene out and unshift it to the front of `scenes`. -/
def SM.sendToBack (st : SM) (key : String) : SM :=
  if st.isProcessing then st.queueOp .sendToBack key none 0
  else
    let index := st.getIndex key
    if index != -1 ∧ index > 0 then
      let scene := st.getScene key
      { st with scenes := scene :: jsEraseAt st.scenes index }
    else st

/-- SceneManager.moveDown: while processing, queue; otherwise swap the
scene with its lower neighbour (no-op at the bottom). -/
def SM.moveDown (st : SM) (key : String) : SM :=
  if st.isProcessing then st.queueOp .moveDown key none 0
  else
    let indexA := st.getIndex key
    if indexA > 0 then
      let indexB := indexA - 1
      let sceneA := st.getScene key
      let sceneB := st.getAt indexB
      { st with scenes := jsSet (jsSet st.scenes indexA sceneB) indexB sceneA }
    else st

/-- SceneManager.moveUp: while processing, queue; otherwise swap the scene
with its upper neighbour.  Note the guard is only `indexA <
scenes.length - 1`: for an unknown key `indexA` is -1, the assignment at
index -1 is element-invisible, and the assignment at index 0 writes
`null` (`sceneA`) into the bottom slot. -/
def SM.moveUp (st : SM) (key : String) : SM :=
  if st.isProcessing then st.queueOp .moveUp key none 0
  else
    let indexA := st.getIndex key
    if indexA < (st.scenes.length : Int) - 1 then
      let indexB := indexA + 1
      let sceneA := st.getScene key
      let sceneB := st.getAt indexB
      { st with scenes := jsSet (jsSet st.scenes indexA sceneB) indexB sceneA }
    else st

/-- SceneManager.moveAbove(keyA, keyB): move scene B so it sits
immediately above scene A; no-op when the keys coincide, either is
missing, or B is already above A (`indexB >= indexA`). -/
def SM.moveAbove (st : SM) (keyA keyB : String) : SM :=
  if keyA == keyB then st
  else if st.isProcessing then st.queueOp .moveAbove keyA (some (.key keyB)) 0
  else
    let indexA := st.getIndex keyA
    let indexB := st.getIndex keyB
    if indexA != -1 ∧ indexB != -1 ∧ indexB < indexA then
      let tempScene := st.getAt indexB
      let sc1 := jsEraseAt st.scenes indexB
      { st with scenes :=
          jsInsertAt sc1 (indexA + (if indexB > indexA then 1 else 0)) tempScene }
    else st

/-- SceneManager.moveBelow(keyA, keyB): move scene B so it sits
immediately below scene A; no-op when the keys coincide, either is
missing, or B is already below A (`indexB <= indexA`). -/
def SM.moveBelow (st : SM) (keyA keyB : String) : SM :=
  if keyA == keyB then st
  else if st.isProcessing then st.queueOp .moveBelow keyA (some (.key keyB)) 0
  else
    let indexA := st.getIndex keyA
    let indexB := st.getIndex keyB
    if indexA != -1 ∧ indexB != -1 ∧ indexB > indexA then
      let tempScene := st.getAt indexB
      let sc1 := jsEraseAt st.scenes indexB
      if indexA == 0 then { st with scenes := tempScene :: sc1 }
      else
        { st with scenes :=
            jsInsertAt sc1 (indexA - (if indexB < indexA then 1 else 0)) tempScene }
    else st

/-- SceneManager.swapPosition: exchange the slots of two scenes; no-op
when the keys coincide or either index is -1. -/
def SM.swapPosition (st : SM) (keyA keyB : String) : SM :=
  if keyA == keyB then st
  else if st.isProcessing then st.queueOp .swapPosition keyA (some (.key keyB)) 0
  else
    let indexA := st.getIndex keyA
    let indexB := st.getIndex keyB
    if indexA != indexB ∧ indexA != -1 ∧ indexB != -1 then
      let tempScene := st.getAt indexA
      let sc1 := jsSet st.scenes indexA (jsGet st.scenes indexB)
      { st with scenes := jsSet sc1 indexB tempScene }
    else st

/-- SceneManager.add: while processing or before boot, append the request
to `_pending` (staging the data in `_data` when not booted) and return
null; otherwise resolve the key through `getKey` (raising the duplicate
error), build the scene from its descriptor shape, inject the data,
re-read the key, bind it in `keys`, append to `scenes`, and autostart —
deferred into `_start` when other admissions are still pending. -/
def SM.add (st : SM) (key : String) (sceneConfig : SceneConfig)
    (autoStart : Bool) (data : Nat) : SM × Except String (Option Nat) :=
  if st.isProcessing || !st.isBooted then
    let st1 := { st with _pending := st._pending ++ [⟨key, sceneConfig, autoStart, data⟩] }
    let st2 :=
      if !st.isBooted then { st1 with _data := setData st1._data key ⟨false, data⟩ }
      else st1
    (st2, .ok none)
  else
    match st.getKey key sceneConfig with
    | .error e => (st, .error e)
    | .ok key1 =>
      let built : SM × Except String Nat :=
        match sceneConfig with
        | .inst s =>
            let p := st.createSceneFromInstance key1 s
            (p.1, .ok p.2)
        | .obj c =>
            let p := st.createSceneFromObject key1 { c with key := some key1 }
            (p.1, .ok p.2)
        | .func r isScene => st.createSceneFromFunction key1 r isScene
      match built with
      | (st1, .error e) => (st1, .error e)
      | (st1, .ok id) =>
        let st2 := st1.updSys id (fun s =>
          { s with settings := { s.settings with data := data } })
        let key2 := (st2.getSys id).settings.key
        let st3 := { st2 with keys := setKey st2.keys key2 id,
                              scenes := st2.scenes ++ [some id] }
        if autoStart || (st3.getSys id).settings.active then
          if st3._pending.length != 0 then
            ({ st3 with _start := st3._start ++ [key2] }, .ok (some id))
          else (st3.start key2 0, .ok (some id))
        else (st3, .ok (some id))

/-- Read the second key out of a queue entry (the source call sites store
a key in `keyB` for every two-key operation; the other shapes cannot
occur there, so a defaulted empty key is unreachable). -/
def kbKey (v : Option KBVal) : String :=
  match v with
  | some (.key k) => k
  | _ => ""

/-- Read a queued data payload out of the `keyB` slot (the source stores
the data object there when `run` queues a deferred start; a missing slot
is the defaulted `{}`). -/
def kbData (v : Option KBVal) : Nat :=
  match v with
  | some (.data d) => d
  | _ => 0

/-- The dynamic dispatch `this[entry.op](entry.keyA, entry.keyB,
entry.data)` of processQueue, over the operations that reach `_queue`. -/
def SM.dispatchOp (st : SM) (e : QueueEntry) : SM :=
  match e.op with
  | .remove => st.remove e.keyA
  | .start => st.start e.keyA (kbData e.keyB)
  | .bringToTop => st.bringToTop e.keyA
  | .sendToBack => st.sendToBack e.keyA
  | .moveDown => st.moveDown e.keyA
  | .moveUp => st.moveUp e.keyA
  | .moveAbove => st.moveAbove e.keyA (kbKey e.keyB)
  | .moveBelow => st.moveBelow e.keyA (kbKey e.keyB)
  | .swapPosition => st.swapPosition e.keyA (kbKey e.keyB)

/-- The `_pending` drain loop of processQueue: `for (i = 0; i <
pendingLength; i++) this.add(...)` with the bound captured before the
loop; `n` counts the remaining iterations, the current index is
`bound - n`, read from the live list (`add` never touches `_pending`
here because the drain runs unprocessed and booted).  An exception from
`add` aborts the whole flush. -/
def SM.drainPending (st : SM) (bound : Nat) : Nat → SM × Option String
  | 0 => (st, none)
  | n + 1 =>
    match st._pending.get? (bound - (n + 1)) with
    | none => (st, none)
    | some entry =>
      match st.add entry.key entry.scene entry.autoStart entry.data with
      | (st1, .error e) => (st1, some e)
      | (st1, .ok _) => st1.drainPending bound n

/-- The `_start` drain loop: `for (i = 0; i < this._start.length; i++)
this.start(entry)` with the length re-read each iteration; `start` never
modifies `_start`, so a fuel of the entry length runs the loop to
completion. -/
def SM.drainStart (st : SM) : Nat → Nat → SM
  | 0, _ => st
  | fuel + 1, i =>
    if i < st._start.length then
      match st._start.get? i with
      | some key => (st.start key 0).drainStart fuel (i + 1)
      | none => st
    else st

/-- The `_queue` replay loop: `for (i = 0; i < this._queue.length; i++)
this[entry.op](...)` with the length re-read each iteration; when the
manager is not processing, no dispatched operation appends to `_queue`,
so a fuel of the entry length runs the loop to completion. -/
def SM.replayQueue (st : SM) : Nat → Nat → SM
  | 0, _ => st
  | fuel + 1, i =>
    if i < st._queue.length then
      match st._queue.get? i with
      | some entry => (st.dispatchOp entry).replayQueue fuel (i + 1)
      | none => st
    else st

/-- SceneManager.processQueue: early-out when both buffers are empty;
when `_pending` is non-empty, drain it through the full `add` admission
algorithm, then start every key collected in `_start` and clear both
lists; finally replay `_queue` in order and clear it. -/
def SM.processQueue (st : SM) : SM × Option String :=
  let pendingLength := st._pending.length
  let queueLength := st._queue.length
  if pendingLength == 0 && queueLength == 0 then (st, none)
  else
    let step1 : SM × Option String :=
      if pendingLength != 0 then
        match st.drainPending pendingLength pendingLength with
        | (st1, some e) => (st1, some e)
        | (st1, none) =>
          let st2 := st1.drainStart st1._start.length 0
          ({ st2 with _start := [], _pending := [] }, none)
      else (st, none)
    match step1 with
    | (st1, some e) => (st1, some e)
    | (st1, none) =>
      let st2 := st1.replayQueue st1._queue.length 0
      ({ st2 with _queue := [] }, none)

/-- One pass of the `_pending` admission loop of bootQueue: build the
scene from its descriptor shape (no duplicate-key check except inside
createSceneFromFunction), bind the re-read key, append to `scenes`,
inject any staged `_data` (which may force `autoStart`), and collect the
key into `_start` when autostarting or configured active. -/
def SM.bootPendingLoop (st : SM) (bound : Nat) : Nat → SM × Option String
  | 0 => (st, none)
  | n + 1 =>
    match st._pending.get? (bound - (n + 1)) with
    | none => (st, none)
    | some entry =>
      let built : SM × Except String Nat :=
        match entry.scene with
        | .inst s =>
            let p := st.createSceneFromInstance entry.key s
            (p.1, .ok p.2)
        | .obj c =>
            let p := st.createSceneFromObject entry.key c
            (p.1, .ok p.2)
        | .func r isScene => st.createSceneFromFunction entry.key r isScene
      match built with
      | (st1, .error e) => (st1, some e)
      | (st1, .ok id) =>
        let key1 := (st1.getSys id).settings.key
        let st2 := { st1 with keys := setKey st1.keys key1 id,
                              scenes := st1.scenes ++ [some id] }
        let injected :=
          match lookupData st2._data key1 with
          | some bd =>
              ((st2.updSys id (fun s =>
                 { s with settings := { s.settings with data := bd.data } })),
               entry.autoStart || bd.autoStart)
          | none => (st2, entry.autoStart)
        let st3 := injected.1
        let st4 :=
          if injected.2 || (st3.getSys id).settings.active then
            { st3 with _start := st3._start ++ [key1] }
          else st3
        st4.bootPendingLoop bound n

/-- SceneManager.bootQueue: once only; create the internal system scene
outside the public admission path, admit every staged entry, clear the
pending buffers, mark the manager booted, then start every collected key
and clear `_start`. -/
def SM.bootQueue (st : SM) : SM × Option String :=
  if st.isBooted then (st, none)
  else
    let p := st.createSceneFromInstance "__SYSTEM" newSceneDefault
    let st1 := { p.1 with systemScene := some p.2 }
    match st1.bootPendingLoop st1._pending.length st1._pending.length with
    | (st2, some e) => (st2, some e)
    | (st2, none) =>
      let st3 := { st2 with _pending := [], _data := [], isBooted := true }
      let st4 := st3.drainStart st3._start.length 0
      ({ st4 with _start := [] }, none)

/-- The reverse scene loop of SceneManager.update: the index runs from
`scenes.length - 1` down to 0 (`n` is the index plus one); a scene whose
status lies strictly between START and RUNNING inclusive is stepped.
(The source would throw on a `null` array entry; such entries are
skipped here and excluded by hypothesis in the theorems.  The
`scenePlugin` transition stepping touches no state modelled here and is
omitted.) -/
def SM.updateLoop (st : SM) (time delta : Nat) : Nat → SM
  | 0 => st
  | n + 1 =>
    let st1 :=
      match st.scenes.getD n none with
      | none => st
      | some id =>
        let sys := st.getSys id
        if CONST.START < sys.settings.status ∧ sys.settings.status ≤ CONST.RUNNING then
          Systems.step st id time delta
        else st
    st1.updateLoop time delta n

/-- SceneManager.update: flush the operation queue, raise `isProcessing`,
then step the active scenes in reverse order. -/
def SM.update (st : SM) (time delta : Nat) : SM × Option String :=
  match st.processQueue with
  | (st1, some e) => (st1, some e)
  | (st1, none) =>
    let st2 := { st1 with isProcessing := true }
    (st2.updateLoop time delta st2.scenes.length, none)

/-- The forward scene loop of SceneManager.render: a visible scene whose
status lies in [LOADING, SLEEPING) is rendered.  (As in `updateLoop`,
`null` entries are skipped.) -/
def SM.renderLoop (st : SM) : Nat → Nat → SM
  | 0, _ => st
  | fuel + 1, i =>
    if i < st.scenes.length then
      let st1 :=
        match st.scenes.getD i none with
        | none => st
        | some id =>
          let sys := st.getSys id
          if sys.settings.visible ∧ CONST.LOADING ≤ sys.settings.status ∧
              sys.settings.status < CONST.SLEEPING then
            Systems.render st id
          else st
      st1.renderLoop fuel (i + 1)
    else st

/-- SceneManager.render: render the visible scenes in forward order, then
clear `isProcessing`. -/
def SM.render (st : SM) (renderer : Nat) : SM :=
  let st1 := st.renderLoop st.scenes.length 0
  { st1 with isProcessing := false }

/-- A concrete scene for the witnesses: all four callbacks, a loader, the
given key and status. -/
def mkScene (key : String) (status : Nat) : SceneObj :=
  { settings := { key := key, status := status, active := false, visible := true,
                  isTransition := false, data := 0, pack := none },
    hasInit := true, hasPreload := false, hasCreate := true, hasUpdate := true,
    hasLoad := true, sceneUpdateInstalled := false }

/-- The heap of the three-scene manager below. -/
def storeABC : Nat → SceneObj :=
  fun id =>
    if id = 0 then mkScene "A" CONST.RUNNING
    else if id = 1 then mkScene "B" CONST.RUNNING
    else if id = 2 then mkScene "C" CONST.RUNNING
    else newSceneDefault

/-- A booted, idle manager with three RUNNING scenes A, B, C in that
order. -/
def smABC : SM :=
  { store := storeABC, storeLen := 3,
    scenes := [some 0, some 1, some 2],
    keys := [("A", 0), ("B", 1), ("C", 2)],
    systemScene := none, _pending := [], _start := [], _queue := [], _data := [],
    isProcessing := false, isBooted := true, warnings := [], events := [] }

/-- The same manager with scene order B, A, C. -/
def smBAC : SM :=
  { smABC with scenes := [some 1, some 0, some 2] }

/-- A booted manager with two RUNNING scenes A, B. -/
def smAB : SM :=
  { store := fun id =>
      if id = 0 then mkScene "A" CONST.RUNNING
      else if id = 1 then mkScene "B" CONST.RUNNING
      else newSceneDefault,
    storeLen := 2,
    scenes := [some 0, some 1],
    keys := [("A", 0), ("B", 1)],
    systemScene := none, _pending := [], _start := [], _queue := [], _data := [],
    isProcessing := false, isBooted := true, warnings := [], events := [] }

/-- `smABC` in the middle of a frame (`isProcessing = true`). -/
def smProc : SM := { smABC with isProcessing := true }

/-- Scene B of `smABC` marked as mid-transition. -/
def sceneBTrans : SceneObj :=
  { mkScene "B" CONST.RUNNING with
      settings := { (mkScene "B" CONST.RUNNING).settings with isTransition := true } }

/-- `smABC` with scene B mid-transition. -/
def smTrans : SM :=
  { smABC with store := updStore storeABC 1 sceneBTrans }

/-- Scene A of `smABC` carrying a preload pack that `addPack` accepts. -/
def sceneAPack : SceneObj :=
  { mkScene "A" CONST.RUNNING with
      settings := { (mkScene "A" CONST.RUNNING).settings with pack := some true } }

/-- `smABC` with scene A RUNNING and owning a pack. -/
def smPack : SM :=
  { smABC with store := updStore storeABC 0 sceneAPack }

/-- `smPack` with scene A idle (INIT) instead of RUNNING. -/
def smPackIdle : SM :=
  { smPack with
      store := updStore storeABC 0
        { sceneAPack with
            settings := { sceneAPack.settings with status := CONST.INIT } } }

/-- `smABC` with scene B never run (INIT, no preload). -/
def smSw : SM :=
  { smABC with store := updStore storeABC 1 (mkScene "B" CONST.INIT) }

/-- A plain-object config with key A and no callbacks. -/
def objCfgA : ObjectConfig :=
  { key := some "A", active := false, visible := true, data := none, pack := none,
    hasInit := false, hasPreload := false, hasCreate := false, hasUpdate := false }

/-- A plain-object config with key D. -/
def objCfgD : ObjectConfig := { objCfgA with key := some "D" }

/-- A pending admission of the key-D object config. -/
def pendD : PendingEntry :=
  { key := "D", scene := .obj objCfgD, autoStart := false, data := 0 }

/-- A not-yet-booted manager with the key-D object config staged twice in
`_pending`. -/
def smFresh : SM :=
  { smABC with store := fun _ => newSceneDefault, storeLen := 0, scenes := [],
               keys := [], isBooted := false, _pending := [pendD, pendD] }

/-- The two `BEq` views of `Option Nat` (the derived one and the
decidable-equality one) compute the same `indexOf`. -/
theorem indexOf_beq_bridge (x : Option Nat) (l : List (Option Nat)) :
    l.indexOf x = @List.indexOf (Option Nat) instBEqOfDecidableEq x l := by
  unfold List.indexOf
  congr 1
  funext y
  by_cases h : y = x <;> simp [h]

/-- On a present element, `jsIndexOf` returns the nonnegative first
index; on an absent element it returns -1. -/
theorem jsIndexOf_of_mem {l : List (Option Nat)} {x : Option Nat} (h : x ∈ l) :
    jsIndexOf l x = (l.indexOf x : Int) := by
  simp [jsIndexOf, h]

/-- An absent element yields -1. -/
theorem jsIndexOf_of_not_mem {l : List (Option Nat)} {x : Option Nat}
    (h : x ∉ l) : jsIndexOf l x = -1 := by
  simp [jsIndexOf, h]

/-- Erasing at the index found by `jsIndexOf` is erasing the first
occurrence. -/
theorem jsEraseAt_jsIndexOf {l : List (Option Nat)} {x : Option Nat}
    (h : x ∈ l) : jsEraseAt l (jsIndexOf l x) = l.erase x := by
  have hlt : l.indexOf x < l.length := by
    rw [indexOf_beq_bridge]
    exact List.indexOf_lt_length.mpr h
  rw [jsIndexOf_of_mem h, jsEraseAt]
  rw [if_pos]
  · have h2 := List.eraseIdx_indexOf_eq_erase x l
    simp only [Int.toNat_ofNat]
    exact h2
  · constructor
    · exact Int.ofNat_nonneg _
    · exact_mod_cast hlt

/-- Removing the element at an in-range index and appending it again is a
permutation. -/
theorem perm_eraseIdx_append {α : Type} (d : α) :
    ∀ (l : List α) (i : Nat), i < l.length →
      (l.eraseIdx i ++ [l.getD i d]).Perm l := by
  intro l
  induction l with
  | nil => intro i h; simp at h
  | cons a t ih =>
    intro i h
    cases i with
    | zero => simp
    | succ n =>
      have hn : n < t.length := by simpa using h
      simpa using (ih n hn).cons a

/-- Removing the element at an in-range index and consing it in front is
a permutation. -/
theorem perm_cons_eraseIdx {α : Type} (d : α) :
    ∀ (l : List α) (i : Nat), i < l.length →
      (l.getD i d :: l.eraseIdx i).Perm l := by
  intro l
  induction l with
  | nil => intro i h; simp at h
  | cons a t ih =>
    intro i h
    cases i with
    | zero => simp
    | succ n =>
      have hn : n < t.length := by simpa using h
      have h1 : (t.getD n d :: a :: t.eraseIdx n).Perm (a :: t.getD n d :: t.eraseIdx n) :=
        List.Perm.swap a (t.getD n d) _
      have h2 : (a :: t.getD n d :: t.eraseIdx n).Perm (a :: t) := (ih n hn).cons a
      simpa using h1.trans h2

/-- Insertion at an index within the list is a permutation of consing. -/
theorem perm_insertIdx {α : Type} (x : α) :
    ∀ (n : Nat) (l : List α), n ≤ l.length → (l.insertIdx n x).Perm (x :: l) := by
  intro n
  induction n with
  | zero => intro l _; simp [List.insertIdx_zero]
  | succ m ih =>
    intro l h
    cases l with
    | nil => simp at h
    | cons a t =>
      have hm : m ≤ t.length := by simpa using h
      have h1 : (List.insertIdx (m + 1) x (a :: t)) = a :: List.insertIdx m x t :=
        List.insertIdx_succ_cons t a x m
      rw [h1]
      exact ((ih t hm).cons a).trans (List.Perm.swap x a t)

/-- Consing the element at an index in front of the list with that slot
overwritten is a permutation of consing the new value on the original. -/
theorem perm_getD_cons_set {α : Type} (d x : α) :
    ∀ (l : List α) (i : Nat), i < l.length →
      (l.getD i d :: l.set i x).Perm (x :: l) := by
  intro l
  induction l with
  | nil => intro i h; simp at h
  | cons a t ih =>
    intro i h
    cases i with
    | zero => simpa using List.Perm.swap x a t
    | succ n =>
      have hn : n < t.length := by simpa using h
      have h1 : (t.getD n d :: a :: t.set n x).Perm (a :: t.getD n d :: t.set n x) :=
        List.Perm.swap a (t.getD n d) _
      have h2 : (a :: t.getD n d :: t.set n x).Perm (a :: x :: t) := (ih n hn).cons a
      have h3 : (a :: x :: t).Perm (x :: a :: t) := List.Perm.swap x a t
      simpa using (h1.trans h2).trans h3

/-- Exchanging two in-range slots is a permutation. -/
theorem perm_set_swap {α : Type} (d : α) :
    ∀ (l : List α) (i j : Nat), i < l.length → j < l.length →
      ((l.set i (l.getD j d)).set j (l.getD i d)).Perm l := by
  intro l
  induction l with
  | nil => intro i j h _; simp at h
  | cons a t ih =>
    intro i j hi hj
    cases i with
    | zero =>
      cases j with
      | zero => simp
      | succ n =>
        have hn : n < t.length := by simpa using hj
        simpa using perm_getD_cons_set d a t n hn
    | succ m =>
      cases j with
      | zero =>
        have hm : m < t.length := by simpa using hi
        simpa using perm_getD_cons_set d a t m hm
      | succ n =>
        have hm : m < t.length := by simpa using hi
        have hn : n < t.length := by simpa using hj
        simpa using (ih m n hm hn).cons a

/-- C6: whenever `isProcessing` is true or `isBooted` is false,
`add(key, sceneConfig, autoStart, data)` returns null, appends the
request `{key, scene, autoStart, data}` to `_pending` without modifying
`scenes` or `keys`, and stages the data under the key in the boot-time
`_data` map exactly when the manager is not yet booted. -/
theorem C6_add_deferred (st : SM) (key : String) (cfg : SceneConfig)
    (autoStart : Bool) (data : Nat)
    (h : st.isProcessing = true ∨ st.isBooted = false) :
    (st.add key cfg autoStart data).2 = .ok none ∧
    (st.add key cfg autoStart data).1.scenes = st.scenes ∧
    (st.add key cfg autoStart data).1.keys = st.keys ∧
    (st.add key cfg autoStart data).1._pending =
      st._pending ++ [⟨key, cfg, autoStart, data⟩] ∧
    (st.add key cfg autoStart data).1._data =
      (if st.isBooted then st._data else setData st._data key ⟨false, data⟩) := by
  cases hb : st.isBooted
  · simp [SM.add, hb]
  · have hp : st.isProcessing = true := by
      rcases h with h | h
      · exact h
      · rw [h] at hb; cases hb
    simp [SM.add, hb, hp]

/-- C6 witness: a processing manager defers a concrete object-config
admission. -/
theorem C6_add_deferred_witness :
    (smProc.add "X" (.obj objCfgA) false 3).2 = .ok none ∧
    (smProc.add "X" (.obj objCfgA) false 3).1.scenes = smProc.scenes ∧
    (smProc.add "X" (.obj objCfgA) false 3).1.keys = smProc.keys ∧
    (smProc.add "X" (.obj objCfgA) false 3).1._pending =
      smProc._pending ++ [⟨"X", .obj objCfgA, false, 3⟩] ∧
    (smProc.add "X" (.obj objCfgA) false 3).1._data =
      (if smProc.isBooted then smProc._data
       else setData smProc._data "X" ⟨false, 3⟩) :=
  C6_add_deferred smProc "X" (.obj objCfgA) false 3 (Or.inl rfl)

/-- The key defaulting of `getKey`: an empty key becomes `'default'`. -/
def defaultKey (key : String) : String :=
  if key == "" then "default" else key

/-- The effective key `getKey` duplicate-checks for an object config. -/
def objEffKey (key : String) (c : ObjectConfig) : String :=
  c.key.getD (defaultKey key)

/-- The effective key `createSceneFromFunction` duplicate-checks for a
Scene-subclass function config. -/
def funcEffKey (key : String) (r : SceneObj) : String :=
  if r.settings.key != "" then r.settings.key else defaultKey key

/-- C2 counterexample: the duplicate-key error is not raised on every
second admission under a live key.  A plain-function config added under
the existing key A succeeds, growing `scenes` and overwriting the key
binding; and at boot two object configs staged under the same key D are
both admitted with no error, leaving two scenes and one binding. -/
theorem C2_counterexample :
    (smABC.add "A" (.func (mkScene "" CONST.PENDING) false) false 0).2 =
      .ok (some 3) ∧
    (smABC.add "A" (.func (mkScene "" CONST.PENDING) false) false 0).1.scenes =
      [some 0, some 1, some 2, some 3] ∧
    lookupKey (smABC.add "A" (.func (mkScene "" CONST.PENDING) false) false 0).1.keys
      "A" = some 3 ∧
    smFresh.bootQueue.2 = none ∧
    smFresh.bootQueue.1.scenes = [some 1, some 2] ∧
    lookupKey smFresh.bootQueue.1.keys "D" = some 2 := by
  refine ⟨rfl, rfl, rfl, rfl, rfl, rfl⟩

/-- C2 amended: on a booted, non-processing manager, `add` raises the
duplicate-key configuration error synchronously and leaves the whole
state unchanged whenever the config is a Scene instance, a plain object,
or a Scene-subclass constructor whose effective key is already bound
(plain-function configs, and instance/object configs admitted through
`bootQueue`, bypass the check — see the counterexample). -/
theorem C2_amended (st : SM) (key : String) (autoStart : Bool) (data : Nat)
    (hproc : st.isProcessing = false) (hboot : st.isBooted = true) :
    (∀ s : SceneObj, (lookupKey st.keys s.settings.key).isSome →
       st.add key (.inst s) autoStart data =
         (st, .error ("Cannot add Scene with duplicate key: " ++ s.settings.key))) ∧
    (∀ c : ObjectConfig, (lookupKey st.keys (objEffKey key c)).isSome →
       st.add key (.obj c) autoStart data =
         (st, .error ("Cannot add Scene with duplicate key: " ++ objEffKey key c))) ∧
    (∀ r : SceneObj, (lookupKey st.keys (funcEffKey key r)).isSome →
       st.add key (.func r true) autoStart data =
         (st, .error ("Cannot add Scene with duplicate key: " ++ funcEffKey key r))) := by
  refine ⟨?_, ?_, ?_⟩
  · intro s hdup
    simp [SM.add, hproc, hboot, SM.getKey, hdup]
  · intro c hdup
    rcases hk : c.key with _ | k
    · have hd : (lookupKey st.keys (defaultKey key)).isSome := by
        simpa [objEffKey, hk] using hdup
      simp [SM.add, hproc, hboot, SM.getKey, hk, defaultKey, objEffKey] at hd ⊢
      simp [hd]
    · have hd : (lookupKey st.keys k).isSome := by
        simpa [objEffKey, hk] using hdup
      simp [SM.add, hproc, hboot, SM.getKey, hk, hd, objEffKey]
  · intro r hdup
    by_cases hk : r.settings.key = ""
    · have hd : (lookupKey st.keys (defaultKey key)).isSome := by
        simpa [funcEffKey, hk] using hdup
      simp [SM.add, hproc, hboot, SM.getKey, SM.createSceneFromFunction, hk,
            defaultKey, funcEffKey] at hd ⊢
      simp [hd]
    · have hd : (lookupKey st.keys r.settings.key).isSome := by
        simpa [funcEffKey, hk] using hdup
      simp [SM.add, hproc, hboot, SM.getKey, SM.createSceneFromFunction, hk, hd,
            funcEffKey]

/-- C2 witness: adding a second object config under the live key A
raises the duplicate-key error and leaves the manager untouched. -/
theorem C2_amended_witness :
    smABC.add "A" (.obj objCfgA) false 0 =
      (smABC, .error ("Cannot add Scene with duplicate key: " ++ objEffKey "A" objCfgA)) :=
  (C2_amended smABC "A" false 0 rfl rfl).2.1 objCfgA (by decide)

/-- C8 counterexample: `moveAbove('B','A')` moves its second argument A
above its first argument B, not B above A.  On order [A,B,C] the call
changes the order to [B,A,C] (the claim says it stays [A,B,C]), and on
order [B,A,C] it changes nothing (the claim says the result is of order
A,B,C). -/
theorem C8_counterexample :
    (smABC.moveAbove "B" "A").scenes = [some 1, some 0, some 2] ∧
    (smABC.moveAbove "B" "A").scenes ≠ smABC.scenes ∧
    (smBAC.moveAbove "B" "A").scenes = [some 1, some 0, some 2] ∧
    (smBAC.moveAbove "B" "A").scenes ≠ [some 0, some 1, some 2] := by
  exact ⟨rfl, by decide, rfl, by decide⟩

/-- C8 amended: with the argument convention of the source
(`moveAbove(keyA, keyB)` repositions its second scene keyB relative to
its first scene keyA), the claimed scenarios hold with the arguments
swapped — `moveAbove('A','B')` on order [A,B,C] leaves [A,B,C], and on
order [B,A,C] yields [A,B,C] — and in general `moveAbove`/`moveBelow`
leave the manager unchanged when the two scenes are already in the
requested relative order. -/
theorem C8_amended :
    smABC.moveAbove "A" "B" = smABC ∧
    (smBAC.moveAbove "A" "B").scenes = [some 0, some 1, some 2] ∧
    (∀ st : SM, ∀ keyA keyB : String, st.isProcessing = false → keyA ≠ keyB →
       st.getIndex keyA ≤ st.getIndex keyB → st.moveAbove keyA keyB = st) ∧
    (∀ st : SM, ∀ keyA keyB : String, st.isProcessing = false → keyA ≠ keyB →
       st.getIndex keyB ≤ st.getIndex keyA → st.moveBelow keyA keyB = st) := by
  refine ⟨rfl, rfl, ?_, ?_⟩
  · intro st keyA keyB hproc hk hle
    have hne : (keyA == keyB) = false := beq_eq_false_iff_ne.mpr hk
    have hcond : ¬(st.getIndex keyA ≠ -1 ∧ st.getIndex keyB ≠ -1 ∧
        st.getIndex keyB < st.getIndex keyA) := by
      intro hc
      exact absurd hc.2.2 (not_lt.mpr hle)
    simp [SM.moveAbove, hne, hproc, hcond]
  · intro st keyA keyB hproc hk hle
    have hne : (keyA == keyB) = false := beq_eq_false_iff_ne.mpr hk
    have hcond : ¬(st.getIndex keyA ≠ -1 ∧ st.getIndex keyB ≠ -1 ∧
        st.getIndex keyA < st.getIndex keyB) := by
      intro hc
      exact absurd hc.2.2 (not_lt.mpr hle)
    simp [SM.moveBelow, hne, hproc, hcond]

/-- C8 witness: the general no-op directions applied at concrete
managers. -/
theorem C8_amended_witness :
    smABC.moveAbove "A" "B" = smABC ∧ smBAC.moveBelow "A" "B" = smBAC :=
  ⟨C8_amended.2.2.1 smABC "A" "B" rfl (by decide) (by decide),
   C8_amended.2.2.2 smBAC "A" "B" rfl (by decide) (by decide)⟩

/-- C9 counterexample: on an unknown key, `run` logs no warning, and
`moveUp` is not a no-op — it overwrites the bottom slot of `scenes` with
`null`. -/
theorem C9_counterexample :
    (smABC.run "nope" 3).warnings = [] ∧
    (smABC.moveUp "nope").scenes = [none, some 1, some 2] ∧
    (smABC.moveUp "nope").scenes ≠ smABC.scenes := by
  exact ⟨rfl, rfl, by decide⟩

/-- C9 amended: for a key matching no admitted scene, on a booted,
non-processing manager with a well-formed scene list (no null entries):
`start` logs the missing-key warning and leaves `scenes` and `keys`
unchanged; `run` and the movement operations log nothing; `run`,
`bringToTop`, `sendToBack`, `moveDown`, `moveAbove`, `moveBelow` and
`swapPosition` leave `scenes` and `keys` unchanged; but `moveUp` on a
non-empty scene list overwrites the bottom slot with null (`keys` still
unchanged).  None of the operations raises — each is a total function of
the state. -/
theorem C9_amended (st : SM) (key : String) (d : Nat)
    (hproc : st.isProcessing = false) (hboot : st.isBooted = true)
    (hkey : lookupKey st.keys key = none) (hwf : none ∉ st.scenes) :
    ((st.start key d).warnings = st.warnings ++ ["Scene key not found: " ++ key] ∧
     (st.start key d).scenes = st.scenes ∧ (st.start key d).keys = st.keys) ∧
    ((st.run key d).warnings = st.warnings ∧
     (st.run key d).scenes = st.scenes ∧ (st.run key d).keys = st.keys) ∧
    st.bringToTop key = st ∧
    st.sendToBack key = st ∧
    st.moveDown key = st ∧
    ((st.moveUp key).warnings = st.warnings ∧ (st.moveUp key).keys = st.keys ∧
     (st.scenes = [] → st.moveUp key = st) ∧
     (st.scenes ≠ [] → (st.moveUp key).scenes = st.scenes.set 0 none)) ∧
    (∀ k2 : String, st.moveAbove key k2 = st ∧ st.moveAbove k2 key = st ∧
       st.moveBelow key k2 = st ∧ st.moveBelow k2 key = st ∧
       st.swapPosition key k2 = st ∧ st.swapPosition k2 key = st) := by
  have hscene : st.getScene key = none := by simp [SM.getScene, hkey]
  have hidx : st.getIndex key = -1 := by
    rw [SM.getIndex, hscene]
    exact jsIndexOf_of_not_mem hwf
  refine ⟨?_, ?_, ?_, ?_, ?_, ?_, ?_⟩
  · simp [SM.start, hboot, hscene]
  · rw [SM.run, hscene]
    by_cases hp : st._pending.any (fun e => e.key == key)
    · simp [hp, SM.queueOp]
    · simp [hp]
  · simp [SM.bringToTop, hproc, hidx]
  · simp [SM.sendToBack, hproc, hidx]
  · simp [SM.moveDown, hproc, hidx]
  · rw [SM.moveUp, hproc]
    simp only [Bool.false_eq_true, if_false, hidx]
    by_cases hs : st.scenes = []
    · have hlen : ¬((-1 : Int) < (st.scenes.length : Int) - 1) := by
        rw [hs]; decide
      simp [hlen, hs]
    · have hpos : 0 < st.scenes.length := List.length_pos.mpr hs
      have hlen : ((-1 : Int) < (st.scenes.length : Int) - 1) := by omega
      simp [hlen, hs, hscene, jsSet, hpos]
  · intro k2
    by_cases hk2 : key = k2
    · subst hk2
      simp [SM.moveAbove, SM.moveBelow, SM.swapPosition]
    · have hne1 : (key == k2) = false := beq_eq_false_iff_ne.mpr hk2
      have hne2 : (k2 == key) = false := beq_eq_false_iff_ne.mpr (Ne.symm hk2)
      refine ⟨?_, ?_, ?_, ?_, ?_, ?_⟩
      · simp [SM.moveAbove, hne1, hproc, hidx]
      · simp [SM.moveAbove, hne2, hproc, hidx]
      · simp [SM.moveBelow, hne1, hproc, hidx]
      · simp [SM.moveBelow, hne2, hproc, hidx]
      · simp [SM.swapPosition, hne1, hproc, hidx]
      · simp [SM.swapPosition, hne2, hproc, hidx]

/-- C9 witness: the amended behaviour at a concrete manager and key. -/
theorem C9_amended_witness :
    (smABC.start "nope" 1).warnings = ["Scene key not found: nope"] ∧
    (smABC.run "nope" 1).scenes = smABC.scenes ∧
    smABC.bringToTop "nope" = smABC ∧
    (smABC.moveUp "nope").scenes = smABC.scenes.set 0 none := by
  have h := C9_amended smABC "nope" 1 rfl rfl (by decide) (by decide)
  exact ⟨h.1.1, h.2.1.2.1, h.2.2.1, h.2.2.2.2.2.1.2.2.2 (by decide)⟩

/-- A `jsIndexOf` other than -1 betrays membership. -/
theorem jsIndexOf_mem_of_ne {l : List (Option Nat)} {x : Option Nat}
    (h : jsIndexOf l x ≠ -1) : x ∈ l := by
  by_contra hm
  exact h (jsIndexOf_of_not_mem hm)

/-- For a present element the `jsIndexOf` result truncates to `indexOf`. -/
theorem jsIndexOf_toNat_indexOf {l : List (Option Nat)} {x : Option Nat}
    (h : x ∈ l) : (jsIndexOf l x).toNat = l.indexOf x := by
  rw [jsIndexOf_of_mem h]
  exact Int.toNat_ofNat _

/-- `indexOf` of a present element is in range. -/
theorem indexOf_lt_len {l : List (Option Nat)} {x : Option Nat}
    (h : x ∈ l) : l.indexOf x < l.length := by
  rw [indexOf_beq_bridge]
  exact List.indexOf_lt_length.mpr h

/-- The element at `indexOf` is the element sought. -/
theorem getD_indexOf {l : List (Option Nat)} {x : Option Nat}
    (h : x ∈ l) : l.getD (l.indexOf x) none = x := by
  have heq := indexOf_beq_bridge x l
  have hlt2 : @List.indexOf (Option Nat) instBEqOfDecidableEq x l < l.length := by
    rw [← heq]
    exact indexOf_lt_len h
  calc l.getD (l.indexOf x) none
      = l.getD (@List.indexOf (Option Nat) instBEqOfDecidableEq x l) none := by rw [heq]
    _ = l[@List.indexOf (Option Nat) instBEqOfDecidableEq x l] :=
        List.getD_eq_getElem l none hlt2
    _ = x := List.getElem_indexOf hlt2

/-- In-range `jsSet` is `List.set`. -/
theorem jsSet_eq_set {l : List (Option Nat)} {i : Int} (v : Option Nat)
    (h0 : 0 ≤ i) (h1 : i < (l.length : Int)) :
    jsSet l i v = l.set i.toNat v := by
  simp [jsSet, h0, h1]

/-- Out-of-range `jsSet` changes nothing. -/
theorem jsSet_out_of_range {l : List (Option Nat)} {i : Int} (v : Option Nat)
    (h : ¬(0 ≤ i ∧ i < (l.length : Int))) : jsSet l i v = l := by
  simp [jsSet, h]

/-- In-range `jsGet` is `List.getD`. -/
theorem jsGet_eq_getD {l : List (Option Nat)} {i : Int}
    (h0 : 0 ≤ i) (h1 : i < (l.length : Int)) :
    jsGet l i = l.getD i.toNat none := by
  simp [jsGet, h0, h1]

/-- In-range `jsEraseAt` is `List.eraseIdx`. -/
theorem jsEraseAt_eq_eraseIdx {l : List (Option Nat)} {i : Int}
    (h0 : 0 ≤ i) (h1 : i < (l.length : Int)) :
    jsEraseAt l i = l.eraseIdx i.toNat := by
  simp [jsEraseAt, h0, h1]

/-- A splice-insertion is always a permutation of consing the value. -/
theorem jsInsertAt_perm (l : List (Option Nat)) (i : Int) (v : Option Nat) :
    (jsInsertAt l i v).Perm (v :: l) := by
  rw [jsInsertAt]
  by_cases h : 0 ≤ i
  · rw [if_pos h]
    exact perm_insertIdx v _ l (min_le_right _ _)
  · rw [if_neg h]
    exact perm_insertIdx v 0 l (Nat.zero_le _)

/-- The two `BEq` views of `Option Nat` compute the same `erase`. -/
theorem erase_beq_bridge (x : Option Nat) :
    ∀ l : List (Option Nat),
      l.erase x = @List.erase (Option Nat) instBEqOfDecidableEq l x := by
  intro l
  induction l with
  | nil => rfl
  | cons a t ih =>
    by_cases h : a = x
    · simp [List.erase_cons, h]
    · simp [List.erase_cons, h, ih]

/-- While not processing, `bringToTop` permutes `scenes` and leaves
`keys` untouched. -/
theorem bringToTop_perm (st : SM) (key : String) (h : st.isProcessing = false) :
    (st.bringToTop key).scenes.Perm st.scenes ∧ (st.bringToTop key).keys = st.keys := by
  rw [SM.bringToTop, h]
  simp only [Bool.false_eq_true, if_false, bne_iff_ne]
  by_cases hc : st.getIndex key ≠ -1 ∧ st.getIndex key < (st.scenes.length : Int)
  · rw [if_pos hc]
    have hmem : st.getScene key ∈ st.scenes := by
      apply jsIndexOf_mem_of_ne
      rw [← SM.getIndex]
      exact hc.1
    refine ⟨?_, rfl⟩
    show (jsEraseAt st.scenes (st.getIndex key) ++ [st.getScene key]).Perm st.scenes
    rw [SM.getIndex, jsEraseAt_jsIndexOf hmem, erase_beq_bridge]
    exact (List.perm_append_singleton _ _).trans (List.perm_cons_erase hmem).symm
  · rw [if_neg hc]
    exact ⟨List.Perm.refl _, rfl⟩

/-- While not processing, `sendToBack` permutes `scenes` and leaves
`keys` untouched. -/
theorem sendToBack_perm (st : SM) (key : String) (h : st.isProcessing = false) :
    (st.sendToBack key).scenes.Perm st.scenes ∧ (st.sendToBack key).keys = st.keys := by
  rw [SM.sendToBack, h]
  simp only [Bool.false_eq_true, if_false, bne_iff_ne]
  by_cases hc : st.getIndex key ≠ -1 ∧ st.getIndex key > 0
  · rw [if_pos hc]
    have hmem : st.getScene key ∈ st.scenes := by
      apply jsIndexOf_mem_of_ne
      rw [← SM.getIndex]
      exact hc.1
    refine ⟨?_, rfl⟩
    show (st.getScene key :: jsEraseAt st.scenes (st.getIndex key)).Perm st.scenes
    rw [SM.getIndex, jsEraseAt_jsIndexOf hmem, erase_beq_bridge]
    exact (List.perm_cons_erase hmem).symm
  · rw [if_neg hc]
    exact ⟨List.Perm.refl _, rfl⟩

/-- The two JavaScript assignments that exchange slots `i` and `j`
(with both values read beforehand) permute the list when both indices
are in range and the written values are the current occupants. -/
theorem jsSet_swap_perm (l : List (Option Nat)) (i j : Int) (a b : Option Nat)
    (hi0 : 0 ≤ i) (hi1 : i < (l.length : Int))
    (hj0 : 0 ≤ j) (hj1 : j < (l.length : Int))
    (ha : l.getD i.toNat none = a) (hb : l.getD j.toNat none = b) :
    (jsSet (jsSet l i b) j a).Perm l := by
  rw [jsSet_eq_set b hi0 hi1]
  have hlen : (((l.set i.toNat b).length : Int)) = (l.length : Int) := by simp
  rw [jsSet_eq_set a hj0 (by rw [hlen]; exact hj1)]
  subst ha hb
  exact perm_set_swap none l i.toNat j.toNat (by omega) (by omega)

/-- While not processing, `moveDown` permutes `scenes` and leaves `keys`
untouched. -/
theorem moveDown_perm (st : SM) (key : String) (h : st.isProcessing = false) :
    (st.moveDown key).scenes.Perm st.scenes ∧ (st.moveDown key).keys = st.keys := by
  rw [SM.moveDown, h]
  simp only [Bool.false_eq_true, if_false]
  by_cases hc : st.getIndex key > 0
  · rw [if_pos hc]
    refine ⟨?_, rfl⟩
    have hne : st.getIndex key ≠ -1 := by omega
    have hmem : st.getScene key ∈ st.scenes := by
      apply jsIndexOf_mem_of_ne
      rw [← SM.getIndex]
      exact hne
    have hio : st.getIndex key = (st.scenes.indexOf (st.getScene key) : Int) := by
      rw [SM.getIndex]
      exact jsIndexOf_of_mem hmem
    have hilt : st.scenes.indexOf (st.getScene key) < st.scenes.length :=
      indexOf_lt_len hmem
    apply jsSet_swap_perm st.scenes _ _ _ _ (by omega) (by omega) (by omega) (by omega)
    · rw [hio]
      simp only [Int.toNat_ofNat]
      exact getD_indexOf hmem
    · rw [SM.getAt, jsGet_eq_getD (by omega) (by omega)]
  · rw [if_neg hc]
    exact ⟨List.Perm.refl _, rfl⟩

/-- While not processing, `moveUp` on a key that resolves to a list
element permutes `scenes` and leaves `keys` untouched (an unresolved key
is the corrupting case treated in the C9/C10 theorems). -/
theorem moveUp_perm (st : SM) (key : String) (h : st.isProcessing = false)
    (hfound : st.getIndex key ≠ -1) :
    (st.moveUp key).scenes.Perm st.scenes ∧ (st.moveUp key).keys = st.keys := by
  rw [SM.moveUp, h]
  simp only [Bool.false_eq_true, if_false]
  by_cases hc : st.getIndex key < (st.scenes.length : Int) - 1
  · rw [if_pos hc]
    refine ⟨?_, rfl⟩
    have hmem : st.getScene key ∈ st.scenes := by
      apply jsIndexOf_mem_of_ne
      rw [← SM.getIndex]
      exact hfound
    have hio : st.getIndex key = (st.scenes.indexOf (st.getScene key) : Int) := by
      rw [SM.getIndex]
      exact jsIndexOf_of_mem hmem
    have hilt : st.scenes.indexOf (st.getScene key) < st.scenes.length :=
      indexOf_lt_len hmem
    have hge : 0 ≤ st.getIndex key := by rw [hio]; exact Int.ofNat_nonneg _
    apply jsSet_swap_perm st.scenes _ _ _ _ (by omega) (by omega) (by omega) (by omega)
    · rw [hio]
      simp only [Int.toNat_ofNat]
      exact getD_indexOf hmem
    · rw [SM.getAt, jsGet_eq_getD (by omega) (by omega)]
  · rw [if_neg hc]
    exact ⟨List.Perm.refl _, rfl⟩

/-- While not processing, `swapPosition` permutes `scenes` and leaves
`keys` untouched. -/
theorem swapPosition_perm (st : SM) (keyA keyB : String)
    (h : st.isProcessing = false) :
    (st.swapPosition keyA keyB).scenes.Perm st.scenes ∧
    (st.swapPosition keyA keyB).keys = st.keys := by
  rw [SM.swapPosition]
  by_cases hk : keyA == keyB
  · rw [if_pos hk]
    exact ⟨List.Perm.refl _, rfl⟩
  · rw [if_neg hk, h]
    simp only [Bool.false_eq_true, if_false, bne_iff_ne]
    by_cases hc : st.getIndex keyA ≠ st.getIndex keyB ∧ st.getIndex keyA ≠ -1 ∧
        st.getIndex keyB ≠ -1
    · rw [if_pos hc]
      refine ⟨?_, rfl⟩
      have hmemA : st.getScene keyA ∈ st.scenes := by
        apply jsIndexOf_mem_of_ne
        rw [← SM.getIndex]
        exact hc.2.1
      have hmemB : st.getScene keyB ∈ st.scenes := by
        apply jsIndexOf_mem_of_ne
        rw [← SM.getIndex]
        exact hc.2.2
      have hioA : st.getIndex keyA = (st.scenes.indexOf (st.getScene keyA) : Int) := by
        rw [SM.getIndex]
        exact jsIndexOf_of_mem hmemA
      have hioB : st.getIndex keyB = (st.scenes.indexOf (st.getScene keyB) : Int) := by
        rw [SM.getIndex]
        exact jsIndexOf_of_mem hmemB
      have hiltA : st.scenes.indexOf (st.getScene keyA) < st.scenes.length :=
        indexOf_lt_len hmemA
      have hiltB : st.scenes.indexOf (st.getScene keyB) < st.scenes.length :=
        indexOf_lt_len hmemB
      apply jsSet_swap_perm st.scenes _ _ _ _ (by omega) (by omega) (by omega)
        (by omega)
      · rw [SM.getAt, jsGet_eq_getD (by omega) (by omega)]
      · rw [jsGet_eq_getD (by omega) (by omega)]
    · rw [if_neg hc]
      exact ⟨List.Perm.refl _, rfl⟩

/-- While not processing, `moveAbove` permutes `scenes` and leaves
`keys` untouched. -/
theorem moveAbove_perm (st : SM) (keyA keyB : String)
    (h : st.isProcessing = false) :
    (st.moveAbove keyA keyB).scenes.Perm st.scenes ∧
    (st.moveAbove keyA keyB).keys = st.keys := by
  rw [SM.moveAbove]
  by_cases hk : keyA == keyB
  · rw [if_pos hk]
    exact ⟨List.Perm.refl _, rfl⟩
  · rw [if_neg hk, h]
    simp only [Bool.false_eq_true, if_false, bne_iff_ne]
    by_cases hc : st.getIndex keyA ≠ -1 ∧ st.getIndex keyB ≠ -1 ∧
        st.getIndex keyB < st.getIndex keyA
    · rw [if_pos hc]
      refine ⟨?_, rfl⟩
      have hmemB : st.getScene keyB ∈ st.scenes := by
        apply jsIndexOf_mem_of_ne
        rw [← SM.getIndex]
        exact hc.2.1
      have hmemA : st.getScene keyA ∈ st.scenes := by
        apply jsIndexOf_mem_of_ne
        rw [← SM.getIndex]
        exact hc.1
      have hioB : st.getIndex keyB = (st.scenes.indexOf (st.getScene keyB) : Int) := by
        rw [SM.getIndex]
        exact jsIndexOf_of_mem hmemB
      have hiltB : st.scenes.indexOf (st.getScene keyB) < st.scenes.length :=
        indexOf_lt_len hmemB
      have h1 := jsInsertAt_perm (jsEraseAt st.scenes (st.getIndex keyB))
        (st.getIndex keyA + (if st.getIndex keyB > st.getIndex keyA then 1 else 0))
        (st.getAt (st.getIndex keyB))
      apply h1.trans
      have hB0 : 0 ≤ st.getIndex keyB := by omega
      have hB1 : st.getIndex keyB < (st.scenes.length : Int) := by omega
      rw [SM.getAt, jsGet_eq_getD hB0 hB1, jsEraseAt_eq_eraseIdx hB0 hB1]
      exact perm_cons_eraseIdx none st.scenes (st.getIndex keyB).toNat (by omega)
    · rw [if_neg hc]
      exact ⟨List.Perm.refl _, rfl⟩

/-- While not processing, `moveBelow` permutes `scenes` and leaves
`keys` untouched. -/
theorem moveBelow_perm (st : SM) (keyA keyB : String)
    (h : st.isProcessing = false) :
    (st.moveBelow keyA keyB).scenes.Perm st.scenes ∧
    (st.moveBelow keyA keyB).keys = st.keys := by
  rw [SM.moveBelow]
  by_cases hk : keyA == keyB
  · rw [if_pos hk]
    exact ⟨List.Perm.refl _, rfl⟩
  · rw [if_neg hk, h]
    simp only [Bool.false_eq_true, if_false, bne_iff_ne]
    by_cases hc : st.getIndex keyA ≠ -1 ∧ st.getIndex keyB ≠ -1 ∧
        st.getIndex keyB > st.getIndex keyA
    · rw [if_pos hc]
      have hmemB : st.getScene keyB ∈ st.scenes := by
        apply jsIndexOf_mem_of_ne
        rw [← SM.getIndex]
        exact hc.2.1
      have hioB : st.getIndex keyB = (st.scenes.indexOf (st.getScene keyB) : Int) := by
        rw [SM.getIndex]
        exact jsIndexOf_of_mem hmemB
      have hiltB : st.scenes.indexOf (st.getScene keyB) < st.scenes.length :=
        indexOf_lt_len hmemB
      have hB0 : 0 ≤ st.getIndex keyB := by omega
      have hB1 : st.getIndex keyB < (st.scenes.length : Int) := by omega
      by_cases hz : st.getIndex keyA == 0
      · rw [if_pos hz]
        refine ⟨?_, rfl⟩
        rw [SM.getAt, jsGet_eq_getD hB0 hB1, jsEraseAt_eq_eraseIdx hB0 hB1]
        exact perm_cons_eraseIdx none st.scenes (st.getIndex keyB).toNat (by omega)
      · rw [if_neg hz]
        refine ⟨?_, rfl⟩
        have h1 := jsInsertAt_perm (jsEraseAt st.scenes (st.getIndex keyB))
          (st.getIndex keyA - (if st.getIndex keyB < st.getIndex keyA then 1 else 0))
          (st.getAt (st.getIndex keyB))
        apply h1.trans
        rw [SM.getAt, jsGet_eq_getD hB0 hB1, jsEraseAt_eq_eraseIdx hB0 hB1]
        exact perm_cons_eraseIdx none st.scenes (st.getIndex keyB).toNat (by omega)
    · rw [if_neg hc]
      exact ⟨List.Perm.refl _, rfl⟩

/-- C10 counterexample: `moveUp` with an unknown key on a non-empty
scene list replaces the bottom slot with null, so the resulting `scenes`
is not a permutation of the previous one. -/
theorem C10_counterexample :
    ¬ (smAB.moveUp "ghost").scenes.Perm smAB.scenes := by decide

/-- C10 amended: when `isProcessing` is false, `bringToTop`,
`sendToBack`, `moveDown`, `moveAbove`, `moveBelow` and `swapPosition`
leave the multiset of `scenes` unchanged and the `keys` map unchanged
for all argument keys, and `moveUp` does so whenever its key resolves to
an element of the list (for an unknown key on a non-empty list it
instead overwrites the bottom slot with null — see the counterexample);
each operation returns the manager state itself, the embedding of
`return this`. -/
theorem C10_amended (st : SM) (hproc : st.isProcessing = false) :
    (∀ key : String,
       (st.bringToTop key).scenes.Perm st.scenes ∧ (st.bringToTop key).keys = st.keys ∧
       (st.sendToBack key).scenes.Perm st.scenes ∧ (st.sendToBack key).keys = st.keys ∧
       (st.moveDown key).scenes.Perm st.scenes ∧ (st.moveDown key).keys = st.keys) ∧
    (∀ key : String, st.getIndex key ≠ -1 →
       (st.moveUp key).scenes.Perm st.scenes ∧ (st.moveUp key).keys = st.keys) ∧
    (∀ keyA keyB : String,
       (st.moveAbove keyA keyB).scenes.Perm st.scenes ∧
       (st.moveAbove keyA keyB).keys = st.keys ∧
       (st.moveBelow keyA keyB).scenes.Perm st.scenes ∧
       (st.moveBelow keyA keyB).keys = st.keys ∧
       (st.swapPosition keyA keyB).scenes.Perm st.scenes ∧
       (st.swapPosition keyA keyB).keys = st.keys) := by
  refine ⟨fun key => ?_, fun key hf => moveUp_perm st key hproc hf,
    fun keyA keyB => ?_⟩
  · obtain ⟨a1, a2⟩ := bringToTop_perm st key hproc
    obtain ⟨b1, b2⟩ := sendToBack_perm st key hproc
    obtain ⟨c1, c2⟩ := moveDown_perm st key hproc
    exact ⟨a1, a2, b1, b2, c1, c2⟩
  · obtain ⟨a1, a2⟩ := moveAbove_perm st keyA keyB hproc
    obtain ⟨b1, b2⟩ := moveBelow_perm st keyA keyB hproc
    obtain ⟨c1, c2⟩ := swapPosition_perm st keyA keyB hproc
    exact ⟨a1, a2, b1, b2, c1, c2⟩

/-- C10 witness: the permutation invariant at a concrete manager. -/
theorem C10_amended_witness :
    (smABC.bringToTop "A").scenes.Perm smABC.scenes ∧
    (smABC.moveUp "A").scenes.Perm smABC.scenes ∧
    (smABC.swapPosition "A" "C").scenes.Perm smABC.scenes := by
  have h := C10_amended smABC rfl
  exact ⟨(h.1 "A").1, (h.2.1 "A" (by decide)).1, (h.2.2 "A" "C").2.2.2.2.1⟩

/-- Emitting an event does not change the stored scenes. -/
theorem getSys_emit (st : SM) (e : Ev) (id : Nat) :
    (st.emit e).getSys id = st.getSys id := rfl

/-- Emitting an event only appends to the trace. -/
theorem emit_events (st : SM) (e : Ev) :
    (st.emit e).events = st.events ++ [e] := rfl

/-- A store update reaches the updated scene. -/
theorem getSys_updSys_self (st : SM) (id : Nat) (f : SceneObj → SceneObj) :
    (st.updSys id f).getSys id = f (st.getSys id) := by
  unfold SM.updSys SM.getSys updStore
  simp

/-- A store update leaves every other scene alone. -/
theorem getSys_updSys_ne (st : SM) (id id2 : Nat) (f : SceneObj → SceneObj)
    (h : id ≠ id2) : (st.updSys id f).getSys id2 = st.getSys id2 := by
  unfold SM.updSys SM.getSys updStore
  simp [Ne.symm h]

/-- Key resolution ignores store updates and trace emissions. -/
theorem getScene_updSys (st : SM) (id : Nat) (f : SceneObj → SceneObj)
    (k : String) : (st.updSys id f).getScene k = st.getScene k := rfl

/-- Key resolution ignores trace emissions. -/
theorem getScene_emit (st : SM) (e : Ev) (k : String) :
    (st.emit e).getScene k = st.getScene k := rfl

/-- Component projections of a store update (everything but the store is
untouched). -/
theorem updSys_frame (st : SM) (id : Nat) (f : SceneObj → SceneObj) :
    (st.updSys id f).scenes = st.scenes ∧ (st.updSys id f).keys = st.keys ∧
    (st.updSys id f).isBooted = st.isBooted ∧
    (st.updSys id f).isProcessing = st.isProcessing ∧
    (st.updSys id f)._pending = st._pending ∧
    (st.updSys id f)._start = st._start ∧
    (st.updSys id f)._queue = st._queue ∧
    (st.updSys id f)._data = st._data ∧
    (st.updSys id f).warnings = st.warnings ∧
    (st.updSys id f).events = st.events :=
  ⟨rfl, rfl, rfl, rfl, rfl, rfl, rfl, rfl, rfl, rfl⟩

/-- Component projections of an event emission (everything but the trace
is untouched). -/
theorem emit_frame (st : SM) (e : Ev) :
    (st.emit e).scenes = st.scenes ∧ (st.emit e).keys = st.keys ∧
    (st.emit e).isBooted = st.isBooted ∧
    (st.emit e).isProcessing = st.isProcessing ∧
    (st.emit e)._pending = st._pending ∧
    (st.emit e)._start = st._start ∧
    (st.emit e)._queue = st._queue ∧
    (st.emit e)._data = st._data ∧
    (st.emit e).warnings = st.warnings ∧
    (st.emit e).store = st.store :=
  ⟨rfl, rfl, rfl, rfl, rfl, rfl, rfl, rfl, rfl, rfl⟩

/-- Equality of every manager component except the scene store and the
event trace — the frame that per-scene lifecycle work preserves. -/
def FrameEq (a b : SM) : Prop :=
  a.scenes = b.scenes ∧ a.keys = b.keys ∧ a.isBooted = b.isBooted ∧
  a.isProcessing = b.isProcessing ∧ a._pending = b._pending ∧
  a._start = b._start ∧ a._queue = b._queue ∧ a._data = b._data ∧
  a.warnings = b.warnings ∧ a.storeLen = b.storeLen

/-- `FrameEq` is reflexive. -/
theorem frameEq_refl (a : SM) : FrameEq a a :=
  ⟨rfl, rfl, rfl, rfl, rfl, rfl, rfl, rfl, rfl, rfl⟩

/-- `FrameEq` is transitive. -/
theorem frameEq_trans {a b c : SM} (h1 : FrameEq a b) (h2 : FrameEq b c) :
    FrameEq a c := by
  obtain ⟨a1, a2, a3, a4, a5, a6, a7, a8, a9, a10⟩ := h1
  obtain ⟨b1, b2, b3, b4, b5, b6, b7, b8, b9, b10⟩ := h2
  exact ⟨a1.trans b1, a2.trans b2, a3.trans b3, a4.trans b4, a5.trans b5,
    a6.trans b6, a7.trans b7, a8.trans b8, a9.trans b9, a10.trans b10⟩

/-- A store update preserves the frame. -/
theorem frameEq_updSys (st : SM) (id : Nat) (f : SceneObj → SceneObj) :
    FrameEq (st.updSys id f) st :=
  ⟨rfl, rfl, rfl, rfl, rfl, rfl, rfl, rfl, rfl, rfl⟩

/-- An event emission preserves the frame. -/
theorem frameEq_emit (st : SM) (e : Ev) :
    FrameEq (st.emit e) st :=
  ⟨rfl, rfl, rfl, rfl, rfl, rfl, rfl, rfl, rfl, rfl⟩

/-- `Systems.start` preserves the frame. -/
theorem frameEq_sys_start (st : SM) (id : Nat) (d : Nat) :
    FrameEq (Systems.start st id d) st := by
  unfold Systems.start
  exact frameEq_trans (frameEq_emit _ _) (frameEq_updSys _ _ _)

/-- `Systems.shutdown` preserves the frame. -/
theorem frameEq_sys_shutdown (st : SM) (id : Nat) (d : Nat) :
    FrameEq (Systems.shutdown st id d) st := by
  unfold Systems.shutdown
  exact frameEq_trans (frameEq_emit _ _) (frameEq_updSys _ _ _)

/-- `Systems.sleep` preserves the frame. -/
theorem frameEq_sys_sleep (st : SM) (id : Nat) (d : Nat) :
    FrameEq (Systems.sleep st id d) st := by
  unfold Systems.sleep
  split_ifs
  · exact frameEq_refl _
  · exact frameEq_trans (frameEq_emit _ _) (frameEq_updSys _ _ _)

/-- `Systems.wake` preserves the frame. -/
theorem frameEq_sys_wake (st : SM) (id : Nat) (d : Nat) :
    FrameEq (Systems.wake st id d) st := by
  unfold Systems.wake
  split_ifs
  · exact frameEq_refl _
  · exact frameEq_trans (frameEq_emit _ _) (frameEq_updSys _ _ _)

/-- `Systems.pause` preserves the frame. -/
theorem frameEq_sys_pause (st : SM) (id : Nat) (d : Nat) :
    FrameEq (Systems.pause st id d) st := by
  unfold Systems.pause
  split_ifs
  · exact frameEq_trans (frameEq_emit _ _) (frameEq_updSys _ _ _)
  · exact frameEq_refl _

/-- `Systems.resume` preserves the frame. -/
theorem frameEq_sys_resume (st : SM) (id : Nat) (d : Nat) :
    FrameEq (Systems.resume st id d) st := by
  unfold Systems.resume
  split_ifs
  · exact frameEq_trans (frameEq_emit _ _) (frameEq_updSys _ _ _)
  · exact frameEq_refl _

/-- `Systems.destroy` preserves the frame. -/
theorem frameEq_sys_destroy (st : SM) (id : Nat) :
    FrameEq (Systems.destroy st id) st := by
  unfold Systems.destroy
  exact frameEq_trans (frameEq_emit _ _) (frameEq_updSys _ _ _)

/-- `create` preserves the frame. -/
theorem frameEq_create (st : SM) (id : Nat) : FrameEq (st.create id) st := by
  unfold SM.create
  simp only []
  split_ifs <;>
    repeat first
      | exact frameEq_refl _
      | refine frameEq_trans (frameEq_updSys _ _ _) ?_
      | refine frameEq_trans (frameEq_emit _ _) ?_

/-- `bootScene` preserves the frame. -/
theorem frameEq_bootScene (st : SM) (id : Nat) :
    FrameEq (st.bootScene id) st := by
  unfold SM.bootScene
  simp only []
  split_ifs <;>
    repeat first
      | exact frameEq_refl _
      | refine frameEq_trans (frameEq_create _ _) ?_
      | refine frameEq_trans (frameEq_updSys _ _ _) ?_
      | refine frameEq_trans (frameEq_emit _ _) ?_

/-- Frame conditions of `start` on a booted manager and a key that
resolves: every component other than the scene store and the trace is
untouched. -/
theorem start_found_frame (st : SM) (key : String) (d : Nat) (ib : Nat)
    (hboot : st.isBooted = true) (hsc : st.getScene key = some ib) :
    FrameEq (st.start key d) st := by
  unfold SM.start
  rw [hboot]
  simp only [Bool.not_true, Bool.false_eq_true, if_false, hsc]
  split_ifs <;>
    repeat first
      | exact frameEq_refl _
      | refine frameEq_trans (frameEq_bootScene _ _) ?_
      | refine frameEq_trans (frameEq_sys_start _ _ _) ?_
      | refine frameEq_trans (frameEq_sys_shutdown _ _ _) ?_
      | refine frameEq_trans (frameEq_updSys _ _ _) ?_
      | refine frameEq_trans (frameEq_emit _ _) ?_

/-- `Systems.start` leaves other scenes untouched. -/
theorem sys_start_getSys_other (st : SM) (id : Nat) (d : Nat) (j : Nat)
    (hj : j ≠ id) : (Systems.start st id d).getSys j = st.getSys j := by
  unfold Systems.start
  rw [getSys_emit, getSys_updSys_ne _ id j _ (Ne.symm hj)]

/-- `Systems.shutdown` leaves other scenes untouched. -/
theorem sys_shutdown_getSys_other (st : SM) (id : Nat) (d : Nat) (j : Nat)
    (hj : j ≠ id) : (Systems.shutdown st id d).getSys j = st.getSys j := by
  unfold Systems.shutdown
  rw [getSys_emit, getSys_updSys_ne _ id j _ (Ne.symm hj)]

/-- `Systems.sleep` leaves other scenes untouched. -/
theorem sys_sleep_getSys_other (st : SM) (id : Nat) (d : Nat) (j : Nat)
    (hj : j ≠ id) : (Systems.sleep st id d).getSys j = st.getSys j := by
  unfold Systems.sleep
  split_ifs
  · rfl
  · rw [getSys_emit, getSys_updSys_ne _ id j _ (Ne.symm hj)]

/-- `Systems.wake` leaves other scenes untouched. -/
theorem sys_wake_getSys_other (st : SM) (id : Nat) (d : Nat) (j : Nat)
    (hj : j ≠ id) : (Systems.wake st id d).getSys j = st.getSys j := by
  unfold Systems.wake
  split_ifs
  · rfl
  · rw [getSys_emit, getSys_updSys_ne _ id j _ (Ne.symm hj)]

/-- `create` leaves other scenes untouched. -/
theorem create_getSys_other (st : SM) (id j : Nat) (hj : j ≠ id) :
    (st.create id).getSys j = st.getSys j := by
  unfold SM.create
  simp only []
  split_ifs <;>
    repeat first
      | rfl
      | rw [getSys_updSys_ne _ id j _ (Ne.symm hj)]
      | rw [getSys_emit]

/-- `bootScene` leaves other scenes untouched. -/
theorem bootScene_getSys_other (st : SM) (id j : Nat) (hj : j ≠ id) :
    (st.bootScene id).getSys j = st.getSys j := by
  unfold SM.bootScene
  simp only []
  split_ifs <;>
    repeat first
      | rfl
      | rw [create_getSys_other _ id j hj]
      | rw [getSys_updSys_ne _ id j _ (Ne.symm hj)]
      | rw [getSys_emit]

/-- On a booted manager with a resolving key, `start` leaves every scene
other than the target untouched. -/
theorem start_getSys_other (st : SM) (key : String) (d : Nat) (ib j : Nat)
    (hboot : st.isBooted = true) (hsc : st.getScene key = some ib)
    (hj : j ≠ ib) : (st.start key d).getSys j = st.getSys j := by
  unfold SM.start
  rw [hboot]
  simp only [Bool.not_true, Bool.false_eq_true, if_false, hsc]
  split_ifs <;>
    repeat first
      | rfl
      | rw [bootScene_getSys_other _ ib j hj]
      | rw [sys_start_getSys_other _ ib _ j hj]
      | rw [sys_shutdown_getSys_other _ ib _ j hj]
      | rw [getSys_updSys_ne _ ib j _ (Ne.symm hj)]
      | rw [getSys_emit]

/-- The no-op branch of `start`: a scene whose status lies in
[START, CREATING] is left entirely alone. -/
theorem start_noop (st : SM) (key : String) (d : Nat) (ib : Nat)
    (hboot : st.isBooted = true) (hsc : st.getScene key = some ib)
    (hstat : CONST.START ≤ (st.getSys ib).settings.status ∧
             (st.getSys ib).settings.status ≤ CONST.CREATING) :
    st.start key d = st := by
  unfold SM.start
  rw [hboot]
  simp only [Bool.not_true, Bool.false_eq_true, if_false, hsc]
  rw [if_pos hstat]

/-- The idle branch of `start` with nothing to load: the scene settles
into START and boots synchronously through init and create into
RUNNING, with the data visible to both callbacks. -/
theorem start_idle_boot (st : SM) (key : String) (d : Nat) (ib : Nat)
    (hboot : st.isBooted = true)
    (hsc : st.getScene key = some ib)
    (hkey : (st.getSys ib).settings.key = key)
    (hstat1 : ¬(CONST.START ≤ (st.getSys ib).settings.status ∧
               (st.getSys ib).settings.status ≤ CONST.CREATING))
    (hstat2 : ¬(CONST.RUNNING ≤ (st.getSys ib).settings.status ∧
               (st.getSys ib).settings.status ≤ CONST.SLEEPING))
    (hpre : (st.getSys ib).hasPreload = false)
    (hpack : (st.getSys ib).settings.pack = none)
    (hinit : (st.getSys ib).hasInit = true)
    (hcreate : (st.getSys ib).hasCreate = true)
    (hndes : (st.getSys ib).settings.status ≠ CONST.DESTROYED)
    (htrans : (st.getSys ib).settings.isTransition = false) :
    ((st.start key d).getSys ib).settings.status = CONST.RUNNING ∧
    ((st.start key d).getSys ib).settings.data = d ∧
    (st.start key d).events =
      st.events ++ [.startEv key d, .initEv key d, .createEv key d, .createdEv key] := by
  unfold SM.start Systems.start SM.bootScene SM.create
  rw [hboot]
  simp only [Bool.not_true, Bool.false_eq_true, if_false, hsc]
  rw [if_neg hstat1, if_neg hstat2]
  simp only [SM.getSys, SM.updSys, SM.emit, updStore, SM.getScene] at *
  by_cases hupd : (st.store ib).hasUpdate = true <;>
    simp [hpack, hpre, hinit, hcreate, htrans, hkey, hupd, updStore,
      CONST.CREATING, CONST.DESTROYED, CONST.RUNNING]

/-- The idle branch of `start` with a pack the loader accepts: the scene
settles into START, then LOADING, the loader is started on the payload,
and the boot sequence is deferred — no init, create or created event is
emitted by the call. -/
theorem start_idle_pack (st : SM) (key : String) (d : Nat) (ib : Nat)
    (hboot : st.isBooted = true)
    (hsc : st.getScene key = some ib)
    (hkey : (st.getSys ib).settings.key = key)
    (hstat1 : ¬(CONST.START ≤ (st.getSys ib).settings.status ∧
               (st.getSys ib).settings.status ≤ CONST.CREATING))
    (hstat2 : ¬(CONST.RUNNING ≤ (st.getSys ib).settings.status ∧
               (st.getSys ib).settings.status ≤ CONST.SLEEPING))
    (hload : (st.getSys ib).hasLoad = true)
    (hpack : (st.getSys ib).settings.pack = some true) :
    ((st.start key d).getSys ib).settings.status = CONST.LOADING ∧
    ((st.start key d).getSys ib).settings.data = d ∧
    (st.start key d).events = st.events ++ [.startEv key d, .packLoadEv key] := by
  unfold SM.start Systems.start
  rw [hboot]
  simp only [Bool.not_true, Bool.false_eq_true, if_false, hsc]
  rw [if_neg hstat1, if_neg hstat2]
  simp only [SM.getSys, SM.updSys, SM.emit, updStore, SM.getScene] at *
  simp [hload, hpack, hkey, updStore]

/-- The recycle branch of `start`: a scene whose status lies in
[RUNNING, SLEEPING] is shut down, restarted, and — regardless of any
declared pack — booted synchronously through init and create back into
RUNNING. -/
theorem start_recycle_boot (st : SM) (key : String) (d : Nat) (ib : Nat)
    (hboot : st.isBooted = true)
    (hsc : st.getScene key = some ib)
    (hkey : (st.getSys ib).settings.key = key)
    (hstat : CONST.RUNNING ≤ (st.getSys ib).settings.status ∧
             (st.getSys ib).settings.status ≤ CONST.SLEEPING)
    (hpre : (st.getSys ib).hasPreload = false)
    (hinit : (st.getSys ib).hasInit = true)
    (hcreate : (st.getSys ib).hasCreate = true)
    (htrans : (st.getSys ib).settings.isTransition = false) :
    ((st.start key d).getSys ib).settings.status = CONST.RUNNING ∧
    ((st.start key d).getSys ib).settings.data = d ∧
    (st.start key d).events =
      st.events ++ [.shutdownEv key 0, .startEv key d, .initEv key d,
                    .createEv key d, .createdEv key] := by
  have h1 : ¬(CONST.START ≤ (st.getSys ib).settings.status ∧
      (st.getSys ib).settings.status ≤ CONST.CREATING) := by
    simp only [CONST.START, CONST.CREATING, CONST.RUNNING, CONST.SLEEPING] at *
    omega
  unfold SM.start Systems.start Systems.shutdown SM.bootScene SM.create
  rw [hboot]
  simp only [Bool.not_true, Bool.false_eq_true, if_false, hsc]
  rw [if_neg h1, if_pos hstat]
  simp only [SM.getSys, SM.updSys, SM.emit, updStore, SM.getScene] at *
  by_cases hupd : (st.store ib).hasUpdate = true <;>
    simp [hpre, hinit, hcreate, htrans, hkey, hupd, updStore, CONST.CREATING,
      CONST.DESTROYED, CONST.RUNNING]

/-- C3 counterexample: a RUNNING scene A owning a pack that `addPack`
would accept is recycled by `start('A', 7)` with a synchronous boot —
it ends RUNNING with init/create already invoked and no loader deferral
— although the claim requires the pack to route through the loader and
defer `bootScene` (which would leave the scene LOADING with no create
yet). -/
theorem C3_counterexample :
    ((smPack.start "A" 7).getSys 0).settings.status = CONST.RUNNING ∧
    (smPack.start "A" 7).events =
      [.shutdownEv "A" 0, .startEv "A" 7, .initEv "A" 7, .createEv "A" 7,
       .createdEv "A"] ∧
    CONST.RUNNING ≠ CONST.LOADING := by
  exact ⟨rfl, rfl, by decide⟩

/-- C3 amended: `start(k, data)` dispatches on the status as claimed —
no-op in [START, CREATING]; shutdown-then-start in [RUNNING, SLEEPING];
direct start otherwise — but the declared pack is consulted on the idle
branch only: the recycle branch always calls `bootScene` synchronously,
pack or no pack, while on the idle branch a pack accepted by the loader
defers the boot (status LOADING, loader started, no init/create yet) and
otherwise `bootScene` runs synchronously. -/
theorem C3_amended (st : SM) (key : String) (d : Nat) (ib : Nat)
    (hboot : st.isBooted = true) (hsc : st.getScene key = some ib)
    (hkey : (st.getSys ib).settings.key = key) :
    (CONST.START ≤ (st.getSys ib).settings.status ∧
       (st.getSys ib).settings.status ≤ CONST.CREATING →
       st.start key d = st) ∧
    (CONST.RUNNING ≤ (st.getSys ib).settings.status ∧
       (st.getSys ib).settings.status ≤ CONST.SLEEPING →
       (st.getSys ib).hasPreload = false → (st.getSys ib).hasInit = true →
       (st.getSys ib).hasCreate = true →
       (st.getSys ib).settings.isTransition = false →
       ((st.start key d).getSys ib).settings.status = CONST.RUNNING ∧
       ((st.start key d).getSys ib).settings.data = d ∧
       (st.start key d).events =
         st.events ++ [.shutdownEv key 0, .startEv key d, .initEv key d,
                       .createEv key d, .createdEv key]) ∧
    (¬(CONST.START ≤ (st.getSys ib).settings.status ∧
         (st.getSys ib).settings.status ≤ CONST.CREATING) →
     ¬(CONST.RUNNING ≤ (st.getSys ib).settings.status ∧
         (st.getSys ib).settings.status ≤ CONST.SLEEPING) →
       (st.getSys ib).hasPreload = false → (st.getSys ib).settings.pack = none →
       (st.getSys ib).hasInit = true → (st.getSys ib).hasCreate = true →
       (st.getSys ib).settings.status ≠ CONST.DESTROYED →
       (st.getSys ib).settings.isTransition = false →
       ((st.start key d).getSys ib).settings.status = CONST.RUNNING ∧
       ((st.start key d).getSys ib).settings.data = d ∧
       (st.start key d).events =
         st.events ++ [.startEv key d, .initEv key d, .createEv key d,
                       .createdEv key]) ∧
    (¬(CONST.START ≤ (st.getSys ib).settings.status ∧
         (st.getSys ib).settings.status ≤ CONST.CREATING) →
     ¬(CONST.RUNNING ≤ (st.getSys ib).settings.status ∧
         (st.getSys ib).settings.status ≤ CONST.SLEEPING) →
       (st.getSys ib).hasLoad = true → (st.getSys ib).settings.pack = some true →
       ((st.start key d).getSys ib).settings.status = CONST.LOADING ∧
       ((st.start key d).getSys ib).settings.data = d ∧
       (st.start key d).events = st.events ++ [.startEv key d, .packLoadEv key]) := by
  refine ⟨?_, ?_, ?_, ?_⟩
  · intro h
    exact start_noop st key d ib hboot hsc h
  · intro h h1 h2 h3 h4
    exact start_recycle_boot st key d ib hboot hsc hkey h h1 h2 h3 h4
  · intro h h0 h1 h2 h3 h4 h5 h6
    exact start_idle_boot st key d ib hboot hsc hkey h h0 h1 h2 h3 h4 h5 h6
  · intro h h0 h1 h2
    exact start_idle_pack st key d ib hboot hsc hkey h h0 h1 h2

/-- C3 witness: the dispatch at concrete managers — a RUNNING scene with
a pack recycles synchronously, an idle scene with the same pack defers
into LOADING. -/
theorem C3_amended_witness :
    ((smPack.start "A" 7).getSys 0).settings.status = CONST.RUNNING ∧
    ((smPackIdle.start "A" 7).getSys 0).settings.status = CONST.LOADING ∧
    (smPackIdle.start "A" 7).events = [.startEv "A" 7, .packLoadEv "A"] := by
  have h1 := (C3_amended smPack "A" 7 0 rfl rfl rfl).2.1
    (by decide) rfl rfl rfl rfl
  have h2 := (C3_amended smPackIdle "A" 7 0 rfl rfl rfl).2.2.2
    (by decide) (by decide) rfl rfl
  exact ⟨h1.1, h2.1, h2.2.2⟩

/-- Effect of the manager `sleep` on a resolving, non-transitioning,
non-destroyed scene: it becomes SLEEPING, a sleep event carrying the
payload is emitted, and nothing else changes. -/
theorem sleep_effect (st : SM) (key : String) (d : Nat) (ia : Nat)
    (hsc : st.getScene key = some ia)
    (hkey : (st.getSys ia).settings.key = key)
    (htrans : (st.getSys ia).settings.isTransition = false)
    (hndes : (st.getSys ia).settings.status ≠ CONST.DESTROYED) :
    ((st.sleep key d).getSys ia).settings.status = CONST.SLEEPING ∧
    (st.sleep key d).events = st.events ++ [.sleepEv key d] ∧
    (∀ j, j ≠ ia → (st.sleep key d).getSys j = st.getSys j) ∧
    FrameEq (st.sleep key d) st := by
  have hd : ((st.getSys ia).settings.status == CONST.DESTROYED) = false := by
    simpa using hndes
  unfold SM.sleep Systems.isTransitioning Systems.sleep
  rw [hsc]
  simp only [htrans, Bool.not_false, if_true, hd, Bool.false_eq_true, if_false]
  refine ⟨?_, ?_, ?_, frameEq_trans (frameEq_emit _ _) (frameEq_updSys _ _ _)⟩
  · rw [getSys_emit, getSys_updSys_self]
  · rw [emit_events, hkey]
    simp [SM.updSys]
  · intro j hj
    rw [getSys_emit, getSys_updSys_ne _ ia j _ (Ne.symm hj)]

/-- Effect of the manager `wake` on a resolving, non-destroyed scene: it
becomes RUNNING, a wake event carrying the payload is emitted, and
nothing else changes. -/
theorem wake_effect (st : SM) (key : String) (d : Nat) (ib : Nat)
    (hsc : st.getScene key = some ib)
    (hkey : (st.getSys ib).settings.key = key)
    (hndes : (st.getSys ib).settings.status ≠ CONST.DESTROYED) :
    ((st.wake key d).getSys ib).settings.status = CONST.RUNNING ∧
    (st.wake key d).events = st.events ++ [.wakeEv key d] ∧
    (∀ j, j ≠ ib → (st.wake key d).getSys j = st.getSys j) ∧
    FrameEq (st.wake key d) st := by
  have hd : ((st.getSys ib).settings.status == CONST.DESTROYED) = false := by
    simpa using hndes
  unfold SM.wake Systems.wake
  rw [hsc]
  simp only [hd, Bool.false_eq_true, if_false]
  refine ⟨?_, ?_, ?_, frameEq_trans (frameEq_emit _ _) (frameEq_updSys _ _ _)⟩
  · rw [getSys_emit, getSys_updSys_self]
  · rw [emit_events, hkey]
    simp [SM.updSys]
  · intro j hj
    rw [getSys_emit, getSys_updSys_ne _ ib j _ (Ne.symm hj)]

/-- Frame-equal managers resolve keys identically. -/
theorem frameEq_getScene {a b : SM} (h : FrameEq a b) (k : String) :
    a.getScene k = b.getScene k := by
  unfold SM.getScene
  rw [h.2.1]

/-- C7 counterexample: with scene B mid-transition, `switch('B','C',4)`
does not put B to sleep — the sleep is refused and B stays RUNNING —
although both scenes exist and differ, so the claim requires B to end
SLEEPING. -/
theorem C7_counterexample :
    ((smTrans.switch "B" "C" 4).getSys 1).settings.status = CONST.RUNNING ∧
    CONST.RUNNING ≠ CONST.SLEEPING := by
  exact ⟨rfl, by decide⟩

/-- C7 amended: `switch(from, to, data)` changes nothing when the keys
coincide or either scene is missing; when both exist, differ, and the
`from` scene is not mid-transition (the transition guard of `sleep` is
the correction) and not destroyed, `from` is put to sleep and `to` is
woken with the data if it was sleeping, otherwise started with the data;
in particular switching to a never-run scene leaves `from` SLEEPING and
`to` RUNNING with the data visible to its init/create callbacks. -/
theorem C7_amended (st : SM) (fromKey toKey : String) (d : Nat) :
    (st.getScene fromKey = none → st.switch fromKey toKey d = st) ∧
    (st.getScene toKey = none → st.switch fromKey toKey d = st) ∧
    (∀ i : Nat, st.getScene fromKey = some i → st.getScene toKey = some i →
       st.switch fromKey toKey d = st) ∧
    (∀ ia ib : Nat, st.isBooted = true →
       st.getScene fromKey = some ia → st.getScene toKey = some ib → ia ≠ ib →
       (st.getSys ia).settings.key = fromKey →
       (st.getSys ib).settings.key = toKey →
       (st.getSys ia).settings.isTransition = false →
       (st.getSys ia).settings.status ≠ CONST.DESTROYED →
       (((st.getSys ib).settings.status = CONST.SLEEPING →
          ((st.switch fromKey toKey d).getSys ia).settings.status = CONST.SLEEPING ∧
          ((st.switch fromKey toKey d).getSys ib).settings.status = CONST.RUNNING ∧
          (st.switch fromKey toKey d).events =
            st.events ++ [.sleepEv fromKey 0, .wakeEv toKey d]) ∧
        ((st.getSys ib).settings.status = CONST.INIT →
          (st.getSys ib).hasPreload = false →
          (st.getSys ib).settings.pack = none →
          (st.getSys ib).hasInit = true → (st.getSys ib).hasCreate = true →
          (st.getSys ib).settings.isTransition = false →
          ((st.switch fromKey toKey d).getSys ia).settings.status = CONST.SLEEPING ∧
          ((st.switch fromKey toKey d).getSys ib).settings.status = CONST.RUNNING ∧
          ((st.switch fromKey toKey d).getSys ib).settings.data = d ∧
          (st.switch fromKey toKey d).events =
            st.events ++ [.sleepEv fromKey 0, .startEv toKey d, .initEv toKey d,
                          .createEv toKey d, .createdEv toKey]))) := by
  refine ⟨?_, ?_, ?_, ?_⟩
  · intro h
    cases hb : st.getScene toKey <;> simp [SM.switch, h, hb]
  · intro h
    cases ha : st.getScene fromKey <;> simp [SM.switch, h, ha]
  · intro i ha hb
    simp [SM.switch, ha, hb]
  · intro ia ib hboot hscA hscB hiaib hkeyA hkeyB htransA hndesA
    obtain ⟨hs1, he1, hother1, hf1⟩ :=
      sleep_effect st fromKey 0 ia hscA hkeyA htransA hndesA
    have hne : (ia != ib) = true := by simpa using hiaib
    have hks : (st.sleep fromKey 0).getScene toKey = some ib := by
      rw [frameEq_getScene hf1, hscB]
    have hsys1b : (st.sleep fromKey 0).getSys ib = st.getSys ib :=
      hother1 ib (Ne.symm hiaib)
    have hsw : st.switch fromKey toKey d =
        (if (st.sleep fromKey 0).isSleeping toKey == some true then
          (st.sleep fromKey 0).wake toKey d
        else (st.sleep fromKey 0).start toKey d) := by
      unfold SM.switch
      rw [hscA, hscB]
      simp only [hne, if_true]
    constructor
    · intro hslp
      have hcond : ((st.sleep fromKey 0).isSleeping toKey == some true) = true := by
        unfold SM.isSleeping Systems.isSleeping
        rw [hks]
        simp [hsys1b, hslp]
      rw [hsw, if_pos hcond]
      have hkey1b : ((st.sleep fromKey 0).getSys ib).settings.key = toKey := by
        rw [hsys1b]; exact hkeyB
      have hndes1b : ((st.sleep fromKey 0).getSys ib).settings.status ≠
          CONST.DESTROYED := by
        rw [hsys1b, hslp]; decide
      obtain ⟨hw1, hw2, hwother, hwf⟩ :=
        wake_effect (st.sleep fromKey 0) toKey d ib hks hkey1b hndes1b
      refine ⟨?_, hw1, ?_⟩
      · rw [hwother ia hiaib]
        exact hs1
      · rw [hw2, he1]
        simp
    · intro hinit2 hpre2 hpack2 hini2 hcre2 htrans2
      have hcond : ((st.sleep fromKey 0).isSleeping toKey == some true) = false := by
        unfold SM.isSleeping Systems.isSleeping
        rw [hks]
        simp [hsys1b, hinit2, CONST.INIT, CONST.SLEEPING]
      rw [hsw, if_neg (by simp [hcond])]
      have hboot1 : (st.sleep fromKey 0).isBooted = true := by
        rw [hf1.2.2.1, hboot]
      have hkey1b : ((st.sleep fromKey 0).getSys ib).settings.key = toKey := by
        rw [hsys1b]; exact hkeyB
      have hstat1a : ¬(CONST.START ≤ ((st.sleep fromKey 0).getSys ib).settings.status ∧
          ((st.sleep fromKey 0).getSys ib).settings.status ≤ CONST.CREATING) := by
        rw [hsys1b, hinit2]; decide
      have hstat1b : ¬(CONST.RUNNING ≤ ((st.sleep fromKey 0).getSys ib).settings.status ∧
          ((st.sleep fromKey 0).getSys ib).settings.status ≤ CONST.SLEEPING) := by
        rw [hsys1b, hinit2]; decide
      obtain ⟨hb1, hb2, hb3⟩ := start_idle_boot (st.sleep fromKey 0) toKey d ib
        hboot1 hks hkey1b hstat1a hstat1b
        (by rw [hsys1b]; exact hpre2) (by rw [hsys1b]; exact hpack2)
        (by rw [hsys1b]; exact hini2) (by rw [hsys1b]; exact hcre2)
        (by rw [hsys1b, hinit2]; decide) (by rw [hsys1b]; exact htrans2)
      refine ⟨?_, hb1, hb2, ?_⟩
      · rw [start_getSys_other (st.sleep fromKey 0) toKey d ib ia hboot1 hks hiaib]
        exact hs1
      · rw [hb3, he1]
        simp

/-- C7 witness: switching from RUNNING A to never-run B with payload 5
leaves A SLEEPING and B RUNNING holding the payload, with the full
event trail. -/
theorem C7_amended_witness :
    ((smSw.switch "A" "B" 5).getSys 0).settings.status = CONST.SLEEPING ∧
    ((smSw.switch "A" "B" 5).getSys 1).settings.status = CONST.RUNNING ∧
    ((smSw.switch "A" "B" 5).getSys 1).settings.data = 5 ∧
    (smSw.switch "A" "B" 5).events =
      [.sleepEv "A" 0, .startEv "B" 5, .initEv "B" 5, .createEv "B" 5,
       .createdEv "B"] := by
  have h := ((C7_amended smSw "A" "B" 5).2.2.2 0 1 rfl rfl rfl (by decide)
    rfl rfl rfl (by decide)).2 rfl rfl rfl rfl rfl rfl
  exact ⟨h.1, h.2.1, h.2.2.1, h.2.2.2⟩

/-- The event the update pass emits for one scene slot: a step event
exactly when `status > START && status <= RUNNING` (specification
expression for the C4 theorem). -/
def stepGate (store : Nat → SceneObj) (x : Option Nat) : Option Ev :=
  match x with
  | some id =>
      if CONST.START < (store id).settings.status ∧
         (store id).settings.status ≤ CONST.RUNNING then
        some (.stepEv (store id).settings.key)
      else none
  | none => none

/-- The event the render pass emits for one scene slot: a render event
exactly when the scene is visible and `status >= LOADING && status <
SLEEPING` (specification expression for the C4 theorem). -/
def renderGate (store : Nat → SceneObj) (x : Option Nat) : Option Ev :=
  match x with
  | some id =>
      if (store id).settings.visible = true ∧
         CONST.LOADING ≤ (store id).settings.status ∧
         (store id).settings.status < CONST.SLEEPING then
        some (.renderEv (store id).settings.key)
      else none
  | none => none

/-- The reverse update loop emits exactly the step events of the gated
scenes among the first `n`, topmost first, and touches nothing else. -/
theorem updateLoop_spec (time delta : Nat) :
    ∀ (n : Nat) (st : SM), n ≤ st.scenes.length →
      (st.updateLoop time delta n).scenes = st.scenes ∧
      (st.updateLoop time delta n).store = st.store ∧
      (st.updateLoop time delta n).keys = st.keys ∧
      (st.updateLoop time delta n).isProcessing = st.isProcessing ∧
      (st.updateLoop time delta n).events =
        st.events ++ ((st.scenes.take n).reverse.filterMap (stepGate st.store)) := by
  intro n
  induction n with
  | zero => intro st _; simp [SM.updateLoop]
  | succ m ih =>
    intro st hn
    have hm : m < st.scenes.length := hn
    have hget : st.scenes.getD m none = st.scenes[m] :=
      List.getD_eq_getElem _ _ hm
    have htake : (st.scenes.take (m + 1)).reverse =
        st.scenes[m] :: (st.scenes.take m).reverse := by
      rw [List.take_succ, List.getElem?_eq_getElem hm]
      simp
    rw [SM.updateLoop, hget]
    rcases hx : st.scenes[m] with _ | id
    all_goals simp only []
    · have := ih st (le_of_lt hm)
      refine ⟨this.1, this.2.1, this.2.2.1, this.2.2.2.1, ?_⟩
      rw [this.2.2.2.2, htake, hx]
      simp [stepGate]
    · by_cases hgate : CONST.START < (st.store id).settings.status ∧
          (st.store id).settings.status ≤ CONST.RUNNING
      · rw [if_pos (by simpa [SM.getSys] using hgate)]
        have := ih (Systems.step st id time delta) (by simpa [Systems.step, SM.emit] using le_of_lt hm)
        refine ⟨this.1, this.2.1, this.2.2.1, this.2.2.2.1, ?_⟩
        rw [this.2.2.2.2, htake, hx]
        simp [Systems.step, SM.emit, SM.getSys, stepGate, hgate]
      · rw [if_neg (by simpa [SM.getSys] using hgate)]
        have := ih st (le_of_lt hm)
        refine ⟨this.1, this.2.1, this.2.2.1, this.2.2.2.1, ?_⟩
        rw [this.2.2.2.2, htake, hx]
        simp [stepGate, hgate]

/-- The forward render loop emits exactly the render events of the
visible gated scenes from index `i` on, bottom first, and touches
nothing else. -/
theorem renderLoop_spec :
    ∀ (fuel : Nat) (st : SM) (i : Nat), st.scenes.length ≤ i + fuel →
      (st.renderLoop fuel i).scenes = st.scenes ∧
      (st.renderLoop fuel i).store = st.store ∧
      (st.renderLoop fuel i).keys = st.keys ∧
      (st.renderLoop fuel i).isProcessing = st.isProcessing ∧
      (st.renderLoop fuel i).events =
        st.events ++ ((st.scenes.drop i).filterMap (renderGate st.store)) := by
  intro fuel
  induction fuel with
  | zero =>
    intro st i hfe
    have : st.scenes.drop i = [] := List.drop_eq_nil_of_le (by omega)
    simp [SM.renderLoop, this]
  | succ f ih =>
    intro st i hfe
    rw [SM.renderLoop]
    by_cases hi : i < st.scenes.length
    · rw [if_pos hi]
      have hget : st.scenes.getD i none = st.scenes[i] :=
        List.getD_eq_getElem _ _ hi
      have hdrop : st.scenes.drop i = st.scenes[i] :: st.scenes.drop (i + 1) :=
        List.drop_eq_getElem_cons hi
      rw [hget]
      rcases hx : st.scenes[i] with _ | id
      all_goals simp only []
      · have := ih st (i + 1) (by omega)
        refine ⟨this.1, this.2.1, this.2.2.1, this.2.2.2.1, ?_⟩
        rw [this.2.2.2.2, hdrop, hx]
        simp [renderGate]
      · by_cases hgate : (st.store id).settings.visible = true ∧
            CONST.LOADING ≤ (st.store id).settings.status ∧
            (st.store id).settings.status < CONST.SLEEPING
        · rw [if_pos (by simpa [SM.getSys] using hgate)]
          have := ih (Systems.render st id) (i + 1)
            (by simpa [Systems.render, SM.emit] using (by omega : st.scenes.length ≤ i + 1 + f))
          refine ⟨this.1, this.2.1, this.2.2.1, this.2.2.2.1, ?_⟩
          rw [this.2.2.2.2, hdrop, hx]
          simp [Systems.render, SM.emit, SM.getSys, renderGate, hgate]
        · rw [if_neg (by simpa [SM.getSys] using hgate)]
          have := ih st (i + 1) (by omega)
          refine ⟨this.1, this.2.1, this.2.2.1, this.2.2.2.1, ?_⟩
          rw [this.2.2.2.2, hdrop, hx]
          simp [renderGate, hgate]
    · rw [if_neg hi]
      have : st.scenes.drop i = [] := List.drop_eq_nil_of_le (by omega)
      simp [this]

/-- C4: with an empty operation queue and admission buffer (the normal
frame entry after deferral), and a well-formed scene array (no null
entries — on a null entry the source itself would throw),
`update(time, delta)` iterates `scenes` in reverse index order and
invokes the step hook exactly on the scenes with
`status > START && status <= RUNNING`, and `render(renderer)` iterates
forward and invokes the render hook exactly on the visible scenes with
`status >= LOADING && status < SLEEPING`; both passes of the frame see
the same `scenes` array contents. -/
theorem C4_update_render (st : SM) (time delta renderer : Nat)
    (hpend : st._pending = []) (hq : st._queue = [])
    (hwf : none ∉ st.scenes) :
    ∃ st1, st.update time delta = (st1, none) ∧
      st1.scenes = st.scenes ∧
      st1.isProcessing = true ∧
      st1.events = st.events ++ (st.scenes.reverse.filterMap (stepGate st.store)) ∧
      (st1.render renderer).scenes = st.scenes ∧
      (st1.render renderer).isProcessing = false ∧
      (st1.render renderer).events =
        st.events ++ (st.scenes.reverse.filterMap (stepGate st.store))
                  ++ (st.scenes.filterMap (renderGate st.store)) := by
  have hpq : st.processQueue = (st, none) := by
    unfold SM.processQueue
    rw [hpend, hq]
    simp
  set stP : SM := { st with isProcessing := true } with hstP
  set st1 : SM := stP.updateLoop time delta stP.scenes.length with hst1
  have hupd : st.update time delta = (st1, none) := by
    unfold SM.update
    rw [hpq, hst1]
  obtain ⟨u1, u2, u3, u4, u5⟩ :=
    updateLoop_spec time delta stP.scenes.length stP (le_refl _)
  rw [← hst1] at u1 u2 u3 u4 u5
  obtain ⟨r1, r2, r3, r4, r5⟩ := renderLoop_spec st1.scenes.length st1 0 (by omega)
  refine ⟨st1, hupd, ?_, ?_, ?_, ?_, ?_, ?_⟩
  · exact u1
  · exact u4
  · rw [u5]
    simp [hstP]
  · rw [SM.render]
    show (st1.renderLoop st1.scenes.length 0).scenes = st.scenes
    rw [r1]
    exact u1
  · rw [SM.render]
  · rw [SM.render]
    show (st1.renderLoop st1.scenes.length 0).events = _
    rw [r5, u5, u1, u2]
    simp [hstP]

/-- C4 witness: the frame traces at a concrete three-scene manager (all
three RUNNING and visible: each is stepped top-down and rendered
bottom-up). -/
theorem C4_update_render_witness :
    ∃ st1, smABC.update 16 16 = (st1, none) ∧
      st1.scenes = smABC.scenes ∧
      st1.isProcessing = true ∧
      st1.events = smABC.events ++
        (smABC.scenes.reverse.filterMap (stepGate smABC.store)) ∧
      (st1.render 0).scenes = smABC.scenes ∧
      (st1.render 0).isProcessing = false ∧
      (st1.render 0).events =
        smABC.events ++ (smABC.scenes.reverse.filterMap (stepGate smABC.store))
                     ++ (smABC.scenes.filterMap (renderGate smABC.store)) :=
  C4_update_render smABC 16 16 0 rfl rfl (by decide)

/-- `start` never changes the `scenes` array, in any branch. -/
theorem start_scenes (st : SM) (k : String) (d : Nat) :
    (st.start k d).scenes = st.scenes := by
  cases hb : st.isBooted
  · unfold SM.start
    rw [hb]
    rfl
  · cases hsc : st.getScene k with
    | none =>
      unfold SM.start
      rw [hb]
      simp [hsc]
    | some id => exact (start_found_frame st k d id hb hsc).1

/-- `stop` never changes the `scenes` array. -/
theorem stop_scenes (st : SM) (k : String) (d : Nat) :
    (st.stop k d).scenes = st.scenes := by
  unfold SM.stop
  cases hsc : st.getScene k
  all_goals simp only []
  split_ifs
  · exact (frameEq_sys_shutdown _ _ _).1
  · rfl

/-- `pause` never changes the `scenes` array. -/
theorem pause_scenes (st : SM) (k : String) (d : Nat) :
    (st.pause k d).scenes = st.scenes := by
  unfold SM.pause
  cases hsc : st.getScene k
  all_goals simp only []
  exact (frameEq_sys_pause _ _ _).1

/-- `resume` never changes the `scenes` array. -/
theorem resume_scenes (st : SM) (k : String) (d : Nat) :
    (st.resume k d).scenes = st.scenes := by
  unfold SM.resume
  cases hsc : st.getScene k
  all_goals simp only []
  exact (frameEq_sys_resume _ _ _).1

/-- `sleep` never changes the `scenes` array. -/
theorem sleep_scenes (st : SM) (k : String) (d : Nat) :
    (st.sleep k d).scenes = st.scenes := by
  unfold SM.sleep
  cases hsc : st.getScene k
  all_goals simp only []
  split_ifs
  · exact (frameEq_sys_sleep _ _ _).1
  · rfl

/-- `wake` never changes the `scenes` array. -/
theorem wake_scenes (st : SM) (k : String) (d : Nat) :
    (st.wake k d).scenes = st.scenes := by
  unfold SM.wake
  cases hsc : st.getScene k
  all_goals simp only []
  exact (frameEq_sys_wake _ _ _).1

/-- `run` never changes the `scenes` array. -/
theorem run_scenes (st : SM) (k : String) (d : Nat) :
    (st.run k d).scenes = st.scenes := by
  unfold SM.run
  cases hsc : st.getScene k with
  | none =>
    simp only []
    split_ifs <;> rfl
  | some id =>
    simp only []
    split_ifs
    · exact (frameEq_sys_wake _ _ _).1
    · exact (frameEq_sys_resume _ _ _).1
    · exact start_scenes st k d

/-- `switch` never changes the `scenes` array. -/
theorem switch_scenes (st : SM) (a b : String) (d : Nat) :
    (st.switch a b d).scenes = st.scenes := by
  unfold SM.switch
  cases ha : st.getScene a <;> cases hb : st.getScene b <;> simp only []
  split_ifs
  · rw [wake_scenes, sleep_scenes]
  · rw [start_scenes, sleep_scenes]
  · rfl

/-- A public mutating SceneManager call together with its arguments —
one constructor per operation of the source's `TSceneOp` type. -/
inductive UserOp where
  | add (key : String) (cfg : SceneConfig) (autoStart : Bool) (data : Nat)
  | remove (key : String)
  | start (key : String) (data : Nat)
  | stop (key : String) (data : Nat)
  | pause (key : String) (data : Nat)
  | resume (key : String) (data : Nat)
  | sleep (key : String) (data : Nat)
  | wake (key : String) (data : Nat)
  | run (key : String) (data : Nat)
  | switch (fromKey toKey : String) (data : Nat)
  | bringToTop (key : String)
  | sendToBack (key : String)
  | moveDown (key : String)
  | moveUp (key : String)
  | moveAbove (keyA keyB : String)
  | moveBelow (keyA keyB : String)
  | swapPosition (keyA keyB : String)
deriving Repr, DecidableEq

/-- Apply a public mutating call to the manager (a thrown admission
error leaves the post-throw state, as the JavaScript caller observes). -/
def applyUserOp (st : SM) : UserOp → SM
  | .add k c a d => (st.add k c a d).1
  | .remove k => st.remove k
  | .start k d => st.start k d
  | .stop k d => st.stop k d
  | .pause k d => st.pause k d
  | .resume k d => st.resume k d
  | .sleep k d => st.sleep k d
  | .wake k d => st.wake k d
  | .run k d => st.run k d
  | .switch a b d => st.switch a b d
  | .bringToTop k => st.bringToTop k
  | .sendToBack k => st.sendToBack k
  | .moveDown k => st.moveDown k
  | .moveUp k => st.moveUp k
  | .moveAbove a b => st.moveAbove a b
  | .moveBelow a b => st.moveBelow a b
  | .swapPosition a b => st.swapPosition a b

/-- While `isProcessing` is true, no public operation changes the
`scenes` array at all: structural calls defer into `_pending` or
`_queue`, and lifecycle calls only touch scene state and the trace. -/
theorem userOp_scenes_processing (st : SM) (op : UserOp)
    (hproc : st.isProcessing = true) :
    (applyUserOp st op).scenes = st.scenes := by
  cases op with
  | add k c a d =>
    show (st.add k c a d).1.scenes = st.scenes
    unfold SM.add
    rw [hproc]
    cases st.isBooted <;> simp
  | remove k =>
    show (st.remove k).scenes = st.scenes
    unfold SM.remove
    rw [hproc]
    rfl
  | start k d => exact start_scenes st k d
  | stop k d => exact stop_scenes st k d
  | pause k d => exact pause_scenes st k d
  | resume k d => exact resume_scenes st k d
  | sleep k d => exact sleep_scenes st k d
  | wake k d => exact wake_scenes st k d
  | run k d => exact run_scenes st k d
  | switch a b d => exact switch_scenes st a b d
  | bringToTop k =>
    show (st.bringToTop k).scenes = st.scenes
    unfold SM.bringToTop
    rw [hproc]
    rfl
  | sendToBack k =>
    show (st.sendToBack k).scenes = st.scenes
    unfold SM.sendToBack
    rw [hproc]
    rfl
  | moveDown k =>
    show (st.moveDown k).scenes = st.scenes
    unfold SM.moveDown
    rw [hproc]
    rfl
  | moveUp k =>
    show (st.moveUp k).scenes = st.scenes
    unfold SM.moveUp
    rw [hproc]
    rfl
  | moveAbove a b =>
    show (st.moveAbove a b).scenes = st.scenes
    unfold SM.moveAbove
    rw [hproc]
    by_cases hk : (a == b) = true
    · rw [if_pos hk]
    · rw [if_neg hk, if_pos rfl]
      rfl
  | moveBelow a b =>
    show (st.moveBelow a b).scenes = st.scenes
    unfold SM.moveBelow
    rw [hproc]
    by_cases hk : (a == b) = true
    · rw [if_pos hk]
    · rw [if_neg hk, if_pos rfl]
      rfl
  | swapPosition a b =>
    show (st.swapPosition a b).scenes = st.scenes
    unfold SM.swapPosition
    rw [hproc]
    by_cases hk : (a == b) = true
    · rw [if_pos hk]
    · rw [if_neg hk, if_pos rfl]
      rfl

/-- Deleting a key makes its lookup fail. -/
theorem lookupKey_eraseKey (m : List (String × Nat)) (k : String) :
    lookupKey (eraseKey m k) k = none := by
  unfold lookupKey eraseKey
  have h : List.find? (fun p => p.1 == k) (m.filter (fun p => p.1 != k)) = none := by
    rw [List.find?_eq_none]
    intro x hx
    have hm := List.of_mem_filter hx
    simpa using hm
  rw [h]

/-- Effect of a direct (non-deferred) `remove` on a resolving,
non-transitioning scene: the key binding is deleted, the scene is
spliced out of `scenes` (first occurrence), its Systems are destroyed,
and `_queue` is untouched. -/
theorem remove_effect (st : SM) (k : String) (id : Nat)
    (hproc : st.isProcessing = false)
    (hsc : st.getScene k = some id)
    (hkey : (st.getSys id).settings.key = k)
    (htrans : (st.getSys id).settings.isTransition = false)
    (hmem : (some id) ∈ st.scenes) :
    (st.remove k).keys = eraseKey st.keys k ∧
    (st.remove k).scenes = st.scenes.erase (some id) ∧
    ((st.remove k).getSys id).settings.status = CONST.DESTROYED ∧
    (st.remove k)._queue = st._queue := by
  have hidx : jsIndexOf st.scenes (some id) > -1 := by
    rw [jsIndexOf_of_mem hmem]
    exact Int.lt_of_lt_of_le (by decide) (Int.ofNat_nonneg _)
  unfold SM.remove Systems.isTransitioning
  rw [hproc, hsc]
  simp only [Bool.false_eq_true, if_false, htrans, hkey]
  rw [if_pos hidx]
  rw [jsEraseAt_jsIndexOf hmem]
  unfold Systems.destroy
  constructor
  · split_ifs <;> rfl
  · constructor
    · split_ifs <;> rfl
    · constructor
      · split_ifs <;> rw [getSys_emit, getSys_updSys_self]
      · split_ifs <;> rfl

/-- One replay step: with exactly one queued entry, the replay loop
dispatches it and stops. -/
theorem replayQueue_one (st : SM) (e : QueueEntry) (hq : st._queue = [e]) :
    SM.replayQueue st 1 0 = st.dispatchOp e := by
  have hstep : SM.replayQueue st 1 0 =
      (if 0 < st._queue.length then
        match st._queue.get? 0 with
        | some entry => SM.replayQueue (st.dispatchOp entry) 0 1
        | none => st
      else st) := rfl
  rw [hstep, hq]
  rfl

/-- processQueue on a manager whose only buffered work is a single
`_queue` entry: the entry is dispatched and the queue cleared. -/
theorem processQueue_single_queue (st : SM) (e : QueueEntry)
    (hp : st._pending = []) (hq : st._queue = [e]) :
    SM.processQueue st = ({ st.dispatchOp e with _queue := [] }, none) := by
  unfold SM.processQueue
  rw [hp, hq]
  simp only [List.length_nil, List.length_cons]
  rw [if_neg (by decide)]
  rw [if_neg (by decide)]
  simp only []
  rw [hq]
  simp only [List.length_cons, List.length_nil]
  rw [replayQueue_one st e hq]

/-- `smTrans` caught mid-frame: the manager is processing. -/
def smTransProc : SM := { smTrans with isProcessing := true }

/-- C1 counterexample: removing the mid-transition scene B while
processing defers a `remove` entry and leaves `scenes` alone, exactly as
claimed — but the replay at the next processQueue runs `remove` against
its transition guard, which refuses, so B is still bound in `keys` and
present in `scenes` after processQueue, contradicting the claim's final
part. -/
theorem C1_counterexample :
    (smTransProc.remove "B")._queue = [⟨QOpName.remove, "B", none, 0⟩] ∧
    (smTransProc.remove "B").scenes = smTransProc.scenes ∧
    (SM.processQueue { smTransProc.remove "B" with isProcessing := false }).1.getScene "B"
      = some 1 ∧
    (SM.processQueue { smTransProc.remove "B" with isProcessing := false }).1.scenes
      = [some 0, some 1, some 2] :=
  ⟨rfl, rfl, rfl, rfl⟩

/-- C1 amended: while `isProcessing` is true, `remove(k)` leaves `scenes`
(hence its length and membership) unchanged and appends a deferred
`remove` entry to `_queue`; no public operation changes `scenes` while
processing; and — provided the scene is not mid-transition — the next
processQueue call replays the entry, after which k is absent from `keys`
and the scene from `scenes` (one element shorter). -/
theorem C1_amended (st : SM) (k : String) (id : Nat)
    (hproc : st.isProcessing = true)
    (hsc : st.getScene k = some id)
    (hkey : (st.getSys id).settings.key = k)
    (htrans : (st.getSys id).settings.isTransition = false)
    (hmem : (some id) ∈ st.scenes)
    (hnd : st.scenes.Nodup)
    (hp : st._pending = []) (hq : st._queue = []) :
    (st.remove k).scenes = st.scenes ∧
    (st.remove k)._queue = st._queue ++ [⟨QOpName.remove, k, none, 0⟩] ∧
    (∀ op : UserOp, (applyUserOp st op).scenes = st.scenes) ∧
    (∃ st2 : SM,
       SM.processQueue { st.remove k with isProcessing := false } = (st2, none) ∧
       st2.getScene k = none ∧
       (some id) ∉ st2.scenes ∧
       st2.scenes.length + 1 = st.scenes.length) := by
  have hrm : st.remove k = st.queueOp QOpName.remove k none 0 := by
    unfold SM.remove
    rw [hproc]
    rfl
  refine ⟨by rw [hrm]; rfl, by rw [hrm]; rfl,
          fun op => userOp_scenes_processing st op hproc, ?_⟩
  have hst1 : ({ st.remove k with isProcessing := false } : SM)
      = { st with _queue := [⟨QOpName.remove, k, none, 0⟩], isProcessing := false } := by
    rw [hrm]
    unfold SM.queueOp
    rw [hq]
    rfl
  set stq : SM :=
    { st with _queue := [⟨QOpName.remove, k, none, 0⟩], isProcessing := false } with hstq
  have hre := remove_effect stq k id rfl hsc hkey htrans hmem
  refine ⟨{ stq.remove k with _queue := [] }, ?_, ?_, ?_, ?_⟩
  · rw [hst1]
    exact processQueue_single_queue stq ⟨QOpName.remove, k, none, 0⟩ hp rfl
  · show lookupKey (stq.remove k).keys k = none
    rw [hre.1]
    exact lookupKey_eraseKey st.keys k
  · show (some id) ∉ (stq.remove k).scenes
    rw [hre.2.1]
    exact List.Nodup.not_mem_erase hnd
  · show (stq.remove k).scenes.length + 1 = st.scenes.length
    rw [hre.2.1]
    have hlen := List.length_erase_of_mem hmem
    have hpos : 0 < st.scenes.length := List.length_pos_of_mem hmem
    show (List.erase st.scenes (some id)).length + 1 = st.scenes.length
    omega

/-- C1 witness: the amended theorem at the processing three-scene manager,
removing B. -/
theorem C1_amended_witness :
    (smProc.remove "B").scenes = smProc.scenes ∧
    (smProc.remove "B")._queue = smProc._queue ++ [⟨QOpName.remove, "B", none, 0⟩] ∧
    (∀ op : UserOp, (applyUserOp smProc op).scenes = smProc.scenes) ∧
    (∃ st2 : SM,
       SM.processQueue { smProc.remove "B" with isProcessing := false } = (st2, none) ∧
       st2.getScene "B" = none ∧
       (some 1) ∉ st2.scenes ∧
       st2.scenes.length + 1 = smProc.scenes.length) :=
  C1_amended smProc "B" 1 rfl rfl rfl rfl (by decide) (by decide) rfl rfl

/-- Equality of the flush buffers and mode flags that the processQueue
phases rely on. -/
def BufSame (a b : SM) : Prop :=
  a._pending = b._pending ∧ a._start = b._start ∧ a._queue = b._queue ∧
  a.isProcessing = b.isProcessing ∧ a.isBooted = b.isBooted

/-- A frame-equal state has the same buffers and mode flags. -/
theorem bufSame_of_frameEq {a b : SM} (h : FrameEq a b) : BufSame a b :=
  ⟨h.2.2.2.2.1, h.2.2.2.2.2.1, h.2.2.2.2.2.2.1, h.2.2.2.1, h.2.2.1⟩

/-- `start` never touches the flush buffers or the mode flags. -/
theorem start_bufSame (st : SM) (k : String) (d : Nat) :
    BufSame (st.start k d) st := by
  cases hb : st.isBooted
  · have h : st.start k d = { st with _data := setData st._data k ⟨true, d⟩ } := by
      unfold SM.start
      rw [hb]
      rfl
    rw [h]
    exact ⟨rfl, rfl, rfl, rfl, rfl⟩
  · cases hsc : st.getScene k with
    | none =>
      have h : st.start k d =
          { st with warnings := st.warnings ++ ["Scene key not found: " ++ k] } := by
        unfold SM.start
        rw [hb]
        simp [hsc]
      rw [h]
      exact ⟨rfl, rfl, rfl, rfl, rfl⟩
    | some ib => exact bufSame_of_frameEq (start_found_frame st k d ib hb hsc)

/-- Admitting an instance never touches the buffers or mode flags. -/
theorem csfInstance_bufSame (st : SM) (k : String) (s : SceneObj) :
    BufSame (st.createSceneFromInstance k s).1 st :=
  ⟨rfl, rfl, rfl, rfl, rfl⟩

/-- Admitting an object config never touches the buffers or mode flags. -/
theorem csfObject_bufSame (st : SM) (k : String) (c : ObjectConfig) :
    BufSame (st.createSceneFromObject k c).1 st :=
  ⟨rfl, rfl, rfl, rfl, rfl⟩

/-- Admitting a function config never touches the buffers or mode
flags. -/
theorem csfFunction_bufSame (st : SM) (k : String) (r : SceneObj) (b : Bool) :
    BufSame (st.createSceneFromFunction k r b).1 st := by
  unfold SM.createSceneFromFunction
  simp only []
  split_ifs <;> exact ⟨rfl, rfl, rfl, rfl, rfl⟩

/-- Direct `remove` (not processing) never touches `_pending`, `_queue`
or the mode flags. -/
theorem remove_buf (st : SM) (k : String) (hproc : st.isProcessing = false) :
    (st.remove k)._pending = st._pending ∧ (st.remove k)._queue = st._queue ∧
    (st.remove k).isProcessing = false ∧
    (st.remove k).isBooted = st.isBooted := by
  unfold SM.remove
  rw [hproc]
  rw [if_neg (by decide)]
  cases hsc : st.getScene k
  · exact ⟨rfl, rfl, hproc, rfl⟩
  · simp only []
    split_ifs <;> refine ⟨rfl, rfl, ?_, rfl⟩ <;> first | rfl | exact hproc

/-- Replaying one queued entry when not processing preserves `_queue` and
keeps the manager unprocessed. -/
theorem dispatch_frame (st : SM) (e : QueueEntry) (hproc : st.isProcessing = false) :
    (st.dispatchOp e)._queue = st._queue ∧ (st.dispatchOp e).isProcessing = false := by
  cases hop : e.op
  case remove =>
    simp only [SM.dispatchOp, hop]
    exact ⟨(remove_buf st e.keyA hproc).2.1, (remove_buf st e.keyA hproc).2.2.1⟩
  case start =>
    simp only [SM.dispatchOp, hop]
    exact ⟨(start_bufSame st e.keyA (kbData e.keyB)).2.2.1,
           (start_bufSame st e.keyA (kbData e.keyB)).2.2.2.1.trans hproc⟩
  case bringToTop =>
    simp only [SM.dispatchOp, hop]
    unfold SM.bringToTop
    rw [hproc, if_neg (by decide)]
    simp only []
    split_ifs <;> constructor <;> first | rfl | exact hproc
  case sendToBack =>
    simp only [SM.dispatchOp, hop]
    unfold SM.sendToBack
    rw [hproc, if_neg (by decide)]
    simp only []
    split_ifs <;> constructor <;> first | rfl | exact hproc
  case moveDown =>
    simp only [SM.dispatchOp, hop]
    unfold SM.moveDown
    rw [hproc, if_neg (by decide)]
    simp only []
    split_ifs <;> constructor <;> first | rfl | exact hproc
  case moveUp =>
    simp only [SM.dispatchOp, hop]
    unfold SM.moveUp
    rw [hproc, if_neg (by decide)]
    simp only []
    split_ifs <;> constructor <;> first | rfl | exact hproc
  case moveAbove =>
    simp only [SM.dispatchOp, hop]
    unfold SM.moveAbove
    rw [hproc]
    by_cases hk : (e.keyA == kbKey e.keyB) = true
    · rw [if_pos hk]
      exact ⟨rfl, hproc⟩
    · rw [if_neg hk, if_neg (by decide)]
      simp only []
      split_ifs <;> constructor <;> first | rfl | exact hproc
  case moveBelow =>
    simp only [SM.dispatchOp, hop]
    unfold SM.moveBelow
    rw [hproc]
    by_cases hk : (e.keyA == kbKey e.keyB) = true
    · rw [if_pos hk]
      exact ⟨rfl, hproc⟩
    · rw [if_neg hk, if_neg (by decide)]
      simp only []
      split_ifs <;> constructor <;> first | rfl | exact hproc
  case swapPosition =>
    simp only [SM.dispatchOp, hop]
    unfold SM.swapPosition
    rw [hproc]
    by_cases hk : (e.keyA == kbKey e.keyB) = true
    · rw [if_pos hk]
      exact ⟨rfl, hproc⟩
    · rw [if_neg hk, if_neg (by decide)]
      simp only []
      split_ifs <;> constructor <;> first | rfl | exact hproc

/-- A synchronous `add` (not processing, booted) never touches `_pending`
or `_queue` and keeps the mode flags: every admission path only extends
`scenes`, `keys` and possibly `_start`. -/
theorem add_frame (st : SM) (k : String) (c : SceneConfig) (a : Bool) (d : Nat)
    (hproc : st.isProcessing = false) (hboot : st.isBooted = true) :
    (st.add k c a d).1._pending = st._pending ∧
    (st.add k c a d).1._queue = st._queue ∧
    (st.add k c a d).1.isProcessing = false ∧
    (st.add k c a d).1.isBooted = true := by
  unfold SM.add
  rw [hproc, hboot]
  rw [if_neg (by decide)]
  cases hk : st.getKey k c with
  | error e => exact ⟨rfl, rfl, hproc, hboot⟩
  | ok key1 =>
    simp only []
    cases c with
    | inst s =>
      simp only []
      split_ifs <;>
        refine ⟨?_, ?_, ?_, ?_⟩ <;>
        first
          | rfl
          | exact hproc
          | exact hboot
          | exact (start_bufSame _ _ 0).1
          | exact (start_bufSame _ _ 0).2.2.1
          | exact ((start_bufSame _ _ 0).2.2.2.1).trans hproc
          | exact ((start_bufSame _ _ 0).2.2.2.2).trans hboot
    | obj oc =>
      simp only []
      split_ifs <;>
        refine ⟨?_, ?_, ?_, ?_⟩ <;>
        first
          | rfl
          | exact hproc
          | exact hboot
          | exact (start_bufSame _ _ 0).1
          | exact (start_bufSame _ _ 0).2.2.1
          | exact ((start_bufSame _ _ 0).2.2.2.1).trans hproc
          | exact ((start_bufSame _ _ 0).2.2.2.2).trans hboot
    | func r isScene =>
      simp only []
      rcases hf : st.createSceneFromFunction key1 r isScene with ⟨st1, res⟩
      have hbuf : BufSame st1 st := by
        have hcs := csfFunction_bufSame st key1 r isScene
        rw [hf] at hcs
        exact hcs
      cases res with
      | error e =>
        simp only []
        exact ⟨hbuf.1, hbuf.2.2.1, hbuf.2.2.2.1.trans hproc, hbuf.2.2.2.2.trans hboot⟩
      | ok id =>
        simp only []
        split_ifs <;>
          refine ⟨?_, ?_, ?_, ?_⟩ <;>
          first
            | exact hbuf.1
            | exact hbuf.2.2.1
            | exact hbuf.2.2.2.1.trans hproc
            | exact hbuf.2.2.2.2.trans hboot
            | exact ((start_bufSame _ _ 0).1).trans hbuf.1
            | exact ((start_bufSame _ _ 0).2.2.1).trans hbuf.2.2.1
            | exact ((start_bufSame _ _ 0).2.2.2.1).trans (hbuf.2.2.2.1.trans hproc)
            | exact ((start_bufSame _ _ 0).2.2.2.2).trans (hbuf.2.2.2.2.trans hboot)

/-- Specification fold of the `_pending` drain: admit the captured
entries in order through the full `add` admission algorithm, aborting the
flush on the first configuration error. -/
def foldAdds (st : SM) : List PendingEntry → SM × Option String
  | [] => (st, none)
  | e :: t =>
    match st.add e.key e.scene e.autoStart e.data with
    | (st1, .error msg) => (st1, some msg)
    | (st1, .ok _) => foldAdds st1 t

/-- Specification fold of the `_start` drain: start the captured keys in
order. -/
def foldStarts (st : SM) : List String → SM
  | [] => st
  | k :: t => foldStarts (st.start k 0) t

/-- Specification fold of the `_queue` replay: dispatch the captured
entries in FIFO order. -/
def foldDispatch (st : SM) : List QueueEntry → SM
  | [] => st
  | e :: t => foldDispatch (st.dispatchOp e) t

/-- The live indexed `_start` loop equals the fold over the captured
list: `start` never modifies `_start`, so the loop and the fold see the
same keys. -/
theorem drainStart_eq (s0 : List String) :
    ∀ (fuel i : Nat) (st : SM), st._start = s0 → s0.length ≤ i + fuel →
      SM.drainStart st fuel i = foldStarts st (s0.drop i) := by
  intro fuel
  induction fuel with
  | zero =>
    intro i st hs hle
    rw [List.drop_eq_nil_of_le (by omega)]
    rfl
  | succ fuel ih =>
    intro i st hs hle
    have hstep : SM.drainStart st (fuel + 1) i =
        (if i < st._start.length then
          match st._start.get? i with
          | some key => SM.drainStart (st.start key 0) fuel (i + 1)
          | none => st
        else st) := rfl
    rw [hstep, hs]
    by_cases hlt : i < s0.length
    · rw [if_pos hlt]
      have hget : s0.get? i = some s0[i] := by
        rw [List.get?_eq_getElem?, List.getElem?_eq_getElem hlt]
      have hdrop : s0.drop i = s0[i] :: s0.drop (i + 1) :=
        List.drop_eq_getElem_cons hlt
      rw [hget, hdrop]
      simp only [foldStarts]
      exact ih (i + 1) (st.start s0[i] 0)
        ((start_bufSame st _ 0).2.1.trans hs) (by omega)
    · rw [if_neg hlt, List.drop_eq_nil_of_le (by omega)]
      rfl

/-- The live indexed `_queue` replay loop equals the fold over the
captured list: no dispatched operation appends to `_queue` while the
manager is not processing. -/
theorem replayQueue_eq (q0 : List QueueEntry) :
    ∀ (fuel i : Nat) (st : SM), st.isProcessing = false → st._queue = q0 →
      q0.length ≤ i + fuel →
      SM.replayQueue st fuel i = foldDispatch st (q0.drop i) := by
  intro fuel
  induction fuel with
  | zero =>
    intro i st hproc hq hle
    rw [List.drop_eq_nil_of_le (by omega)]
    rfl
  | succ fuel ih =>
    intro i st hproc hq hle
    have hstep : SM.replayQueue st (fuel + 1) i =
        (if i < st._queue.length then
          match st._queue.get? i with
          | some entry => SM.replayQueue (st.dispatchOp entry) fuel (i + 1)
          | none => st
        else st) := rfl
    rw [hstep, hq]
    by_cases hlt : i < q0.length
    · rw [if_pos hlt]
      have hget : q0.get? i = some q0[i] := by
        rw [List.get?_eq_getElem?, List.getElem?_eq_getElem hlt]
      have hdrop : q0.drop i = q0[i] :: q0.drop (i + 1) :=
        List.drop_eq_getElem_cons hlt
      rw [hget, hdrop]
      simp only [foldDispatch]
      exact ih (i + 1) (st.dispatchOp q0[i])
        (dispatch_frame st _ hproc).2
        ((dispatch_frame st _ hproc).1.trans hq) (by omega)
    · rw [if_neg hlt, List.drop_eq_nil_of_le (by omega)]
      rfl

/-- The live indexed `_pending` drain loop equals the fold over the
captured list: a synchronous `add` never modifies `_pending`, so the
loop's live reads see the captured entries. -/
theorem drainPending_eq (p : List PendingEntry) :
    ∀ (n : Nat) (st : SM), st.isProcessing = false → st.isBooted = true →
      st._pending = p → n ≤ p.length →
      SM.drainPending st p.length n = foldAdds st (p.drop (p.length - n)) := by
  intro n
  induction n with
  | zero =>
    intro st hproc hboot hp hle
    rw [Nat.sub_zero, List.drop_eq_nil_of_le (Nat.le_refl _)]
    rfl
  | succ n ih =>
    intro st hproc hboot hp hle
    have hidx : p.length - (n + 1) < p.length := by omega
    have hstep : SM.drainPending st p.length (n + 1) =
        (match st._pending.get? (p.length - (n + 1)) with
         | none => (st, none)
         | some entry =>
           match st.add entry.key entry.scene entry.autoStart entry.data with
           | (st1, .error e) => (st1, some e)
           | (st1, .ok _) => SM.drainPending st1 p.length n) := rfl
    have hget : p.get? (p.length - (n + 1)) = some p[p.length - (n + 1)] := by
      rw [List.get?_eq_getElem?, List.getElem?_eq_getElem hidx]
    have hdrop : p.drop (p.length - (n + 1)) =
        p[p.length - (n + 1)] :: p.drop (p.length - n) := by
      have hsub : p.length - (n + 1) + 1 = p.length - n := by omega
      rw [List.drop_eq_getElem_cons hidx, hsub]
    rw [hstep, hp, hget, hdrop]
    simp only [foldAdds]
    rcases hadd : st.add p[p.length - (n + 1)].key p[p.length - (n + 1)].scene
        p[p.length - (n + 1)].autoStart p[p.length - (n + 1)].data with ⟨st1, res⟩
    have haf := add_frame st p[p.length - (n + 1)].key p[p.length - (n + 1)].scene
        p[p.length - (n + 1)].autoStart p[p.length - (n + 1)].data hproc hboot
    rw [hadd] at haf
    cases res with
    | error e => simp only []
    | ok v =>
      simp only []
      exact ih st1 haf.2.2.1 haf.2.2.2 (haf.1.trans hp) (by omega)

/-- `foldAdds` keeps the manager unprocessed and booted. -/
theorem foldAdds_frame (l : List PendingEntry) :
    ∀ st : SM, st.isProcessing = false → st.isBooted = true →
      (foldAdds st l).1.isProcessing = false ∧ (foldAdds st l).1.isBooted = true := by
  induction l with
  | nil => intro st hproc hboot; exact ⟨hproc, hboot⟩
  | cons e t ih =>
    intro st hproc hboot
    simp only [foldAdds]
    rcases hadd : st.add e.key e.scene e.autoStart e.data with ⟨st1, res⟩
    have haf := add_frame st e.key e.scene e.autoStart e.data hproc hboot
    rw [hadd] at haf
    cases res with
    | error msg => exact ⟨haf.2.2.1, haf.2.2.2⟩
    | ok v => exact ih st1 haf.2.2.1 haf.2.2.2

/-- `foldStarts` never changes the processing flag. -/
theorem foldStarts_proc (l : List String) :
    ∀ st : SM, (foldStarts st l).isProcessing = st.isProcessing := by
  induction l with
  | nil => intro st; rfl
  | cons k t ih =>
    intro st
    simp only [foldStarts]
    exact (ih _).trans (start_bufSame st k 0).2.2.2.1

/-- Modelled from the spec: the claimed two-phase flush of processQueue
written as plain folds over the captured buffer contents — first drain
every `_pending` entry through the full `add` admission algorithm
(aborting on a configuration error), then start every `_start` key and
clear both lists, and only then replay the `_queue` entries in FIFO order
and clear it. -/
def processQueueSpec (st : SM) : SM × Option String :=
  if st._pending.length == 0 && st._queue.length == 0 then (st, none)
  else
    let phase1 : SM × Option String :=
      if st._pending.length != 0 then
        match foldAdds st st._pending with
        | (st1, some e) => (st1, some e)
        | (st1, none) =>
          ({ foldStarts st1 st1._start with _start := [], _pending := [] }, none)
      else (st, none)
    match phase1 with
    | (st1, some e) => (st1, some e)
    | (st1, none) => ({ foldDispatch st1 st1._queue with _queue := [] }, none)

/-- C5: on an idle (not processing), booted manager, processQueue is the
claimed two-phase flush: it drains every `_pending` entry through the
full `add` admission algorithm (so duplicate-key checks apply and an
error aborts), then starts every accumulated `_start` key, clears both
lists, and only then replays `_queue` in FIFO order, dispatching each
entry's named operation with its captured arguments. -/
theorem C5_processQueue (st : SM)
    (hproc : st.isProcessing = false) (hboot : st.isBooted = true) :
    SM.processQueue st = processQueueSpec st := by
  unfold SM.processQueue processQueueSpec
  simp only []
  by_cases hempty : (st._pending.length == 0 && st._queue.length == 0) = true
  · rw [if_pos hempty, if_pos hempty]
  · rw [if_neg hempty, if_neg hempty]
    by_cases hpne : (st._pending.length != 0) = true
    · rw [if_pos hpne, if_pos hpne]
      have hdp : SM.drainPending st st._pending.length st._pending.length =
          foldAdds st st._pending := by
        have hgen := drainPending_eq st._pending st._pending.length st hproc hboot rfl
          (Nat.le_refl _)
        rwa [Nat.sub_self, List.drop_zero] at hgen
      rw [hdp]
      rcases hfa : foldAdds st st._pending with ⟨st1, res⟩
      have hff := foldAdds_frame st._pending st hproc hboot
      rw [hfa] at hff
      cases res with
      | some e => rfl
      | none =>
        simp only []
        have hds : st1.drainStart st1._start.length 0 = foldStarts st1 st1._start := by
          have hgen := drainStart_eq st1._start st1._start.length 0 st1 rfl (by omega)
          rwa [List.drop_zero] at hgen
        rw [hds]
        have hproc2 : ({ foldStarts st1 st1._start with
            _start := [], _pending := [] } : SM).isProcessing = false :=
          (foldStarts_proc st1._start st1).trans hff.1
        have hrp := replayQueue_eq
          ({ foldStarts st1 st1._start with _start := [], _pending := [] } : SM)._queue
          ({ foldStarts st1 st1._start with _start := [], _pending := [] } : SM)._queue.length
          0 { foldStarts st1 st1._start with _start := [], _pending := [] }
          hproc2 rfl (by omega)
        rw [List.drop_zero] at hrp
        rw [hrp]
    · rw [if_neg hpne, if_neg hpne]
      simp only []
      have hrp := replayQueue_eq st._queue st._queue.length 0 st hproc rfl (by omega)
      rw [List.drop_zero] at hrp
      rw [hrp]

/-- A booted, idle manager with a buffered admission (key D, autostart)
and a deferred bringToTop entry, exercising all flush phases. -/
def smFlush : SM :=
  { smABC with
      _pending := [{ pendD with autoStart := true }]
      _queue := [⟨QOpName.bringToTop, "A", none, 0⟩] }

/-- C5 witness: the flush refinement at a concrete manager with work in
every buffer. -/
theorem C5_processQueue_witness :
    SM.processQueue smFlush = processQueueSpec smFlush :=
  C5_processQueue smFlush rfl rfl
